import Mathlib

/-!
Verification of the strudel-mcp pattern server.

This file gives a shallow embedding, in Lean 4, of the core of the
strudel-mcp repository (files strudel_mcp.py and strudel_server.py):

* the pattern-file grammar parser (comment stripping, object-literal
  extraction, quote normalisation, key quoting, trailing-comma removal,
  strict JSON decoding);
* note-name validation and pattern schema validation (the pydantic
  models PatternData / ChordDefinition / MelodyDefinition /
  DrumDefinition, including pydantic's error aggregation);
* the pattern serializer `_format_pattern_js`;
* the file writer `_write_pattern_file` and the edit tool
  `strudel_edit_pattern`, modelled as traces of primitive file
  operations over an explicit file-system state;
* the pattern analyzer `_analyze_pattern` (exceptions modelled as
  `Option.none`);
* the change queue of strudel_server.py: `schedule_change`,
  `process_queued_change`, `execute_find_replace` (with its agent
  fallback modelled as an injected outcome) and `cancel_change`.

Text is modelled as `List Char`.  Python floats are modelled by their
decimal literals (an integer mantissa together with a count of
fractional digits), which is faithful for every value that appears in
the pattern-file dialect; `json.loads` is modelled by a strict JSON
parser.  Impure inputs (the current time, the agent's reply) are passed
as explicit parameters.
-/

/-- Convert a string literal to the character-list representation used
throughout this development. -/
def chars (s : String) : List Char := s.data

/-- Python `\s` for the ASCII range: space, tab, newline, carriage
return, vertical tab, form feed. -/
def isPyWs (c : Char) : Bool :=
  c = ' ' || c = '\t' || c = '\n' || c = '\r' || c = '\x0b' || c = '\x0c'

/-- JSON whitespace (as accepted by `json.loads`): space, tab, newline,
carriage return. -/
def isJsonWs (c : Char) : Bool :=
  c = ' ' || c = '\t' || c = '\n' || c = '\r'

/-- Python `str.strip()` restricted to ASCII whitespace. -/
def pyStrip (s : List Char) : List Char :=
  ((s.dropWhile isPyWs).reverse.dropWhile isPyWs).reverse

/-- ASCII decimal digit test (Python's `\d` further matches Unicode
digits; those never pass the octave check, and ASCII is all the
dialect uses). -/
def isAsciiDigit (c : Char) : Bool := '0' ≤ c && c ≤ '9'

/-- Python `\w` for the ASCII range: letters, digits and underscore. -/
def isWordChar (c : Char) : Bool :=
  ('a' ≤ c && c ≤ 'z') || ('A' ≤ c && c ≤ 'Z') || isAsciiDigit c || c = '_'

/-- Split a character list at newline characters, keeping empty lines
(the line structure seen by `re.MULTILINE`). -/
def splitLines : List Char → List (List Char)
  | [] => [[]]
  | '\n' :: rest => [] :: splitLines rest
  | c :: rest =>
    match splitLines rest with
    | [] => [[c]]
    | l :: ls => (c :: l) :: ls

/-- Join lines with newline characters; inverse of `splitLines`. -/
def joinLines : List (List Char) → List Char
  | [] => []
  | [l] => l
  | l :: ls => l ++ '\n' :: joinLines ls

/-- Drop everything from the first `//` to the end of a single line:
the per-line effect of `re.sub(r'//.*$', '', content, re.MULTILINE)`. -/
def stripLineComment : List Char → List Char
  | [] => []
  | '/' :: '/' :: _ => []
  | c :: rest => c :: stripLineComment rest

/-- `re.sub(r'//.*$', '', content, flags=re.MULTILINE)`: remove
single-line comments on every line. -/
def stripComments (s : List Char) : List Char :=
  joinLines ((splitLines s).map stripLineComment)

/-- Does `pre` occur as a prefix? -/
def isPrefixB : List Char → List Char → Bool
  | [], _ => true
  | _ :: _, [] => false
  | p :: ps, c :: cs => p = c && isPrefixB ps cs

/-- Python `find in content`: substring occurrence. -/
def occursIn (pat : List Char) : List Char → Bool
  | [] => isPrefixB pat []
  | c :: rest => isPrefixB pat (c :: rest) || occursIn pat rest

/-- Structural worker for `pySplit` (the fuel only bounds recursion
depth; one unit per character always suffices). -/
def pySplitAux (sep : List Char) : Nat → List Char → List (List Char)
  | _, [] => [[]]
  | 0, s => [s]
  | fuel + 1, c :: rest =>
    if isPrefixB sep (c :: rest) ∧ sep ≠ [] then
      [] :: pySplitAux sep fuel (List.drop (sep.length - 1) rest)
    else
      match pySplitAux sep fuel rest with
      | [] => [[c]]
      | l :: ls => (c :: l) :: ls

/-- CPython `str.split(sep)` for a non-empty separator: split at each
leftmost, non-overlapping occurrence of `sep`. -/
def pySplit (sep s : List Char) : List (List Char) :=
  pySplitAux sep s.length s

/-- Structural worker for `pyReplace`. -/
def pyReplaceAux (find repl : List Char) : Nat → List Char → List Char
  | _, [] => []
  | 0, s => s
  | fuel + 1, c :: rest =>
    if isPrefixB find (c :: rest) ∧ find ≠ [] then
      repl ++ pyReplaceAux find repl fuel (List.drop (find.length - 1) rest)
    else
      c :: pyReplaceAux find repl fuel rest

/-- CPython `str.replace(find, repl)` for a non-empty `find`: scan left
to right, replacing each non-overlapping occurrence. -/
def pyReplace (find repl s : List Char) : List Char :=
  pyReplaceAux find repl s.length s

/-- Values produced by `json.loads`.  Python floats are represented by
the decimal literal they were parsed from: `float m e` denotes the
value `m / 10 ^ e`.  (Python's `repr`/`str` of a float is the shortest
literal that reparses to it, so on everything the serializer emits the
two representations are in bijection.) -/
inductive Json where
  | null
  | bool (b : Bool)
  | int (n : Int)
  | float (m : Int) (e : Nat)
  | str (s : List Char)
  | arr (xs : List Json)
  | obj (kvs : List (List Char × Json))

/-- Python dict lookup `d[k]` on the association list backing an
object (keys are unique by construction). -/
def jlookup (kvs : List (List Char × Json)) (k : List Char) : Option Json :=
  match kvs with
  | [] => none
  | (k0, v) :: rest => if k0 = k then some v else jlookup rest k

/-- Python dict insertion `d[k] = v`: update in place if the key
exists, append otherwise (used while decoding JSON objects). -/
def jinsert (kvs : List (List Char × Json)) (k : List Char) (v : Json) :
    List (List Char × Json) :=
  match kvs with
  | [] => [(k, v)]
  | (k0, v0) :: rest =>
    if k0 = k then (k0, v) :: rest else (k0, v0) :: jinsert rest k v

/-- `pattern[k]` on a parsed pattern: `none` models the `KeyError` /
`TypeError` raised when the key is absent or the value is not a dict. -/
def Json.get? (j : Json) (k : String) : Option Json :=
  match j with
  | .obj kvs => jlookup kvs (chars k)
  | _ => none

/-- `pattern.get(k)` on a parsed pattern (`d.get` returns `None` when
the key is absent; non-dicts have no `.get`, modelled as `none`). -/
def Json.getOrNull (j : Json) (k : String) : Option Json :=
  match j with
  | .obj kvs => some ((jlookup kvs (chars k)).getD .null)
  | _ => none

/-- Python truthiness of a decoded value (`if pattern.get('drums'):`). -/
def Json.truthy : Json → Bool
  | .null => false
  | .bool b => b
  | .int n => n ≠ 0
  | .float m _ => m ≠ 0
  | .str s => !s.isEmpty
  | .arr xs => !xs.isEmpty
  | .obj kvs => !kvs.isEmpty

/-- Python iteration `for x in v`: lists yield their elements, strings
their characters (as one-character strings), dicts their keys; other
values raise `TypeError`, modelled as `none`. -/
def Json.iter? : Json → Option (List Json)
  | .arr xs => some xs
  | .str s => some (s.map (fun c => Json.str [c]))
  | .obj kvs => some (kvs.map (fun kv => Json.str kv.1))
  | _ => none

/-- Structural worker for `natDigits`. -/
def natDigitsAux : Nat → Nat → List Char
  | 0, _ => []
  | fuel + 1, n =>
    if n < 10 then [Char.ofNat (48 + n)]
    else natDigitsAux fuel (n / 10) ++ [Char.ofNat (48 + n % 10)]

/-- Decimal digit list of a natural number (most significant first). -/
def natDigits (n : Nat) : List Char := natDigitsAux (n + 1) n

/-- Python `str(int)`. -/
def renderInt (n : Int) : List Char :=
  if n < 0 then '-' :: natDigits n.natAbs else natDigits n.natAbs

/-- Python `str(float)` on the value `m / 10 ^ e`, digit-faithfully:
the mantissa's digits with a decimal point `e` places from the right
(padding with zeros so both sides of the point are non-empty). -/
def renderFloat (m : Int) (e : Nat) : List Char :=
  let ds0 := natDigits m.natAbs
  let ds := List.replicate (e + 1 - ds0.length) '0' ++ ds0
  let signPart : List Char := if m < 0 then ['-'] else []
  signPart ++ ds.take (ds.length - e) ++ '.' ::
    (if e = 0 then ['0'] else ds.drop (ds.length - e))

mutual

/-- Python `repr()` of a decoded value (strings get single quotes;
used by `str()` on containers). -/
def pyRepr : Json → List Char
  | .null => chars "None"
  | .bool b => if b then chars "True" else chars "False"
  | .int n => renderInt n
  | .float m e => renderFloat m e
  | .str s => '\'' :: s ++ ['\'']
  | .arr xs => '[' :: pyReprList xs ++ [']']
  | .obj kvs => '\x7b' :: pyReprKvs kvs ++ ['\x7d']

/-- Comma-joined reprs of list elements. -/
def pyReprList : List Json → List Char
  | [] => []
  | [x] => pyRepr x
  | x :: xs => pyRepr x ++ ',' :: ' ' :: pyReprList xs

/-- Comma-joined reprs of dict entries. -/
def pyReprKvs : List (List Char × Json) → List Char
  | [] => []
  | [(k, v)] => '\'' :: k ++ '\'' :: ':' :: ' ' :: pyRepr v
  | (k, v) :: kvs =>
    '\'' :: k ++ '\'' :: ':' :: ' ' :: pyRepr v ++ ',' :: ' ' :: pyReprKvs kvs

end

/-- Python `str()` of a decoded value, as used by the serializer's
f-strings. -/
def pyStr : Json → List Char
  | .str s => s
  | j => pyRepr j

/-- Skip JSON whitespace. -/
def skipWs (s : List Char) : List Char := s.dropWhile isJsonWs

/-- Hexadecimal digit value. -/
def hexVal (c : Char) : Option Nat :=
  if '0' ≤ c ∧ c ≤ '9' then some (c.toNat - 48)
  else if 'a' ≤ c ∧ c ≤ 'f' then some (c.toNat - 87)
  else if 'A' ≤ c ∧ c ≤ 'F' then some (c.toNat - 55)
  else none

/-- Prepend a decoded character to a string-body parse result. -/
def pcons (c : Char) : Option (List Char × List Char) → Option (List Char × List Char)
  | some (s, r) => some (c :: s, r)
  | none => none

/-- Body of a JSON string (the opening quote already consumed): the
decoded characters and the text after the closing quote.  Escapes are
decoded as by `json.loads`; unescaped control characters are
rejected.  (Surrogate-pair `\u` escapes are approximated by
`Char.ofNat`; the pattern dialect never contains escapes at all.) -/
def parseStringBody : List Char → Option (List Char × List Char)
  | [] => none
  | '"' :: rest => some ([], rest)
  | '\\' :: '"' :: rest => pcons '"' (parseStringBody rest)
  | '\\' :: '\\' :: rest => pcons '\\' (parseStringBody rest)
  | '\\' :: '/' :: rest => pcons '/' (parseStringBody rest)
  | '\\' :: 'b' :: rest => pcons '\x08' (parseStringBody rest)
  | '\\' :: 'f' :: rest => pcons '\x0c' (parseStringBody rest)
  | '\\' :: 'n' :: rest => pcons '\n' (parseStringBody rest)
  | '\\' :: 'r' :: rest => pcons '\r' (parseStringBody rest)
  | '\\' :: 't' :: rest => pcons '\t' (parseStringBody rest)
  | '\\' :: 'u' :: h1 :: h2 :: h3 :: h4 :: rest =>
    match hexVal h1, hexVal h2, hexVal h3, hexVal h4 with
    | some a, some b, some c, some d =>
      pcons (Char.ofNat (((a * 16 + b) * 16 + c) * 16 + d)) (parseStringBody rest)
    | _, _, _, _ => none
  | '\\' :: _ => none
  | c :: rest => if c.toNat < 32 then none else pcons c (parseStringBody rest)

/-- Numeric value of a list of decimal digits. -/
def digitsToNat (ds : List Char) : Nat :=
  ds.foldl (fun a c => a * 10 + (c.toNat - 48)) 0

/-- The integer-part digits of a JSON number: `0`, or a nonzero digit
followed by more digits (leading zeros are not permitted). -/
def parseIntDigits : List Char → Option (List Char × List Char)
  | '0' :: rest => some (['0'], rest)
  | c :: rest =>
    if isAsciiDigit c then some (c :: rest.takeWhile isAsciiDigit, rest.dropWhile isAsciiDigit)
    else none
  | [] => none

/-- A JSON number literal, as decoded by `json.loads`: an optional
minus sign, integer digits, optional fraction, optional exponent.
A literal with a fraction or exponent decodes to a Python float
(`Json.float`), otherwise to an int. -/
def parseNumber (s : List Char) : Option (Json × List Char) :=
  let (neg, s1) : Bool × List Char :=
    match s with
    | '-' :: r => (true, r)
    | _ => (false, s)
  match parseIntDigits s1 with
  | none => none
  | some (ip, s2) =>
    let (fr, s3) : Option (List Char) × List Char :=
      match s2 with
      | '.' :: r =>
        match r.takeWhile isAsciiDigit with
        | [] => (none, s2)
        | ds => (some ds, r.dropWhile isAsciiDigit)
      | _ => (none, s2)
    if fr = none ∧ s2 ≠ s3 then none
    else
      let (ex, s4) : Option Int × List Char :=
        match s3 with
        | 'e' :: r => expPart r s3
        | 'E' :: r => expPart r s3
        | _ => (none, s3)
      match fr, ex with
      | none, none =>
        let n : Int := Int.ofNat (digitsToNat ip)
        some (.int (if neg then -n else n), s3)
      | _, _ =>
        let frDigits := fr.getD []
        let m0 : Int := Int.ofNat (digitsToNat (ip ++ frDigits))
        let m1 : Int := if neg then -m0 else m0
        let e0 : Nat := frDigits.length
        let x : Int := (ex.getD 0)
        let v : Json :=
          if x ≥ 0 then .float (m1 * 10 ^ x.toNat) e0
          else .float m1 (e0 + (-x).toNat)
        some (v, s4)
where
  /-- The exponent after `e`/`E`: optional sign and at least one
  digit; on failure the whole exponent part is not consumed (the
  grammar then stops before the `e`). -/
  expPart (r fallback : List Char) : Option Int × List Char :=
    let (eneg, r1) : Bool × List Char :=
      match r with
      | '+' :: r2 => (false, r2)
      | '-' :: r2 => (true, r2)
      | _ => (false, r)
    match r1.takeWhile isAsciiDigit with
    | [] => (none, fallback)
    | ds =>
      let n : Int := Int.ofNat (digitsToNat ds)
      (some (if eneg then -n else n), r1.dropWhile isAsciiDigit)

mutual

/-- One value of the strict JSON grammar accepted by `json.loads`,
with the input starting at the value's first character.  The fuel
argument only bounds recursion depth; `jsonLoads` supplies more fuel
than any input can consume.  (`json.loads`'s optional `NaN` /
`Infinity` constants are not modelled; the dialect never contains
them.) -/
def parseValue : Nat → List Char → Option (Json × List Char)
  | 0, _ => none
  | _ + 1, [] => none
  | fuel + 1, c :: rest =>
    if c = '\x7b' then
      match skipWs rest with
      | '\x7d' :: r2 => some (.obj [], r2)
      | r => parseObjItems fuel r []
    else if c = '[' then
      match skipWs rest with
      | ']' :: r2 => some (.arr [], r2)
      | r => parseArrItems fuel r []
    else if c = '"' then
      match parseStringBody rest with
      | some (s, r) => some (.str s, r)
      | none => none
    else if isPrefixB (chars "true") (c :: rest) then some (.bool true, rest.drop 3)
    else if isPrefixB (chars "false") (c :: rest) then some (.bool false, rest.drop 4)
    else if isPrefixB (chars "null") (c :: rest) then some (.null, rest.drop 3)
    else parseNumber (c :: rest)

/-- Comma-separated values until `]` (at least one; the input starts
at a value). -/
def parseArrItems : Nat → List Char → List Json → Option (Json × List Char)
  | 0, _, _ => none
  | fuel + 1, s, acc =>
    match parseValue fuel s with
    | none => none
    | some (v, r) =>
      match skipWs r with
      | ',' :: r2 => parseArrItems fuel (skipWs r2) (acc ++ [v])
      | ']' :: r2 => some (.arr (acc ++ [v]), r2)
      | _ => none

/-- Comma-separated `"key": value` pairs until the closing brace (at
least one; the input starts at a key).  Duplicate keys overwrite, as
in a Python dict. -/
def parseObjItems : Nat → List Char → List (List Char × Json) →
    Option (Json × List Char)
  | 0, _, _ => none
  | fuel + 1, s, acc =>
    match s with
    | '"' :: r =>
      match parseStringBody r with
      | none => none
      | some (k, r2) =>
        match skipWs r2 with
        | ':' :: r3 =>
          match parseValue fuel (skipWs r3) with
          | none => none
          | some (v, r4) =>
            match skipWs r4 with
            | ',' :: r5 => parseObjItems fuel (skipWs r5) (jinsert acc k v)
            | '\x7d' :: r5 => some (.obj (jinsert acc k v), r5)
            | _ => none
        | _ => none
    | _ => none

end

/-- `json.loads`: decode one value and insist the remainder is
whitespace. -/
def jsonLoads (s : List Char) : Option Json :=
  match parseValue (2 * s.length + 2) (skipWs s) with
  | some (v, r) => if (skipWs r).isEmpty then some v else none
  | none => none

/-- The last viable close of the object match: split `r` as
`inner ++ '\x7d' :: ws ++ ')' :: _` at the *last* brace that is
followed (after whitespace) by a closing parenthesis — the end the
greedy `.*` of `re.search(r'\(\s*\{.*\}\s*\)', s, re.DOTALL)` selects.
Returns `(inner, ws)`. -/
def findLastClose : List Char → Option (List Char × List Char)
  | [] => none
  | c :: rest =>
    match findLastClose rest with
    | some (inner, ws2) => some (c :: inner, ws2)
    | none =>
      if c = '\x7d' then
        match rest.dropWhile isPyWs with
        | ')' :: _ => some ([], rest.takeWhile isPyWs)
        | _ => none
      else none

/-- Try the object-literal regex anchored at the start of `s`; on
success return the match *without* its outer parentheses (that is,
`match.group(0)[1:-1]`). -/
def tryMatchAt (s : List Char) : Option (List Char) :=
  match s with
  | '(' :: r0 =>
    match r0.dropWhile isPyWs with
    | '\x7b' :: r2 =>
      match findLastClose r2 with
      | some (inner, ws2) =>
        some (r0.takeWhile isPyWs ++ '\x7b' :: inner ++ '\x7d' :: ws2)
      | none => none
    | _ => none
  | _ => none

/-- `re.search(r'\(\s*\{.*\}\s*\)', s, re.DOTALL)` followed by
stripping the outer parentheses: the leftmost start at which the whole
pattern matches, with greedy extent. -/
def searchObject : List Char → Option (List Char)
  | [] => none
  | c :: rest =>
    match tryMatchAt (c :: rest) with
    | some m => some m
    | none => searchObject rest

/-- `obj_str.replace("'", '"')`. -/
def quoteReplace (s : List Char) : List Char :=
  s.map (fun c => if c = '\'' then '"' else c)

/-- The lookahead `(?=\s*:)`. -/
def lookaheadColon (s : List Char) : Bool :=
  match s.dropWhile isPyWs with
  | ':' :: _ => true
  | _ => false

/-- `re.sub(r'(\w+)(?=\s*:)', r'"\1"', s)`: wrap every maximal word
run that is followed (after whitespace) by a colon in double quotes.
(The regex engine's backtracking can never succeed with a shorter run
than the maximal one, because the character after a shortened run is a
word character, not whitespace or a colon.) -/
def keyQuoteAux : Nat → List Char → List Char
  | _, [] => []
  | 0, s => s
  | fuel + 1, c :: rest =>
    if isWordChar c then
      if lookaheadColon (rest.dropWhile isWordChar) then
        '"' :: (c :: rest.takeWhile isWordChar) ++ '"' :: keyQuoteAux fuel (rest.dropWhile isWordChar)
      else
        (c :: rest.takeWhile isWordChar) ++ keyQuoteAux fuel (rest.dropWhile isWordChar)
    else c :: keyQuoteAux fuel rest

/-- The full substitution, with enough fuel for the whole text. -/
def keyQuote (s : List Char) : List Char := keyQuoteAux s.length s

/-- `re.sub(r',\s*([\]}])', r'\1', s)`: delete a comma (and the
following whitespace) that sits directly before a closing bracket or
brace. -/
def commaStripAux : Nat → List Char → List Char
  | _, [] => []
  | 0, s => s
  | fuel + 1, c :: rest =>
    if c = ',' then
      match rest.dropWhile isPyWs with
      | ']' :: r2 => ']' :: commaStripAux fuel r2
      | '\x7d' :: r2 => '\x7d' :: commaStripAux fuel r2
      | _ => ',' :: commaStripAux fuel rest
    else c :: commaStripAux fuel rest

/-- The full substitution, with enough fuel for the whole text. -/
def commaStrip (s : List Char) : List Char := commaStripAux s.length s

/-- `_parse_pattern`: strip comments, trim, extract the object
literal, normalise quotes, quote bare keys, delete trailing commas,
decode as strict JSON.  `none` models the `ValueError` raised on any
failure. -/
def parsePattern (content : List Char) : Option Json :=
  match searchObject (pyStrip (stripComments content)) with
  | none => none
  | some objStr => jsonLoads (commaStrip (keyQuote (quoteReplace objStr)))

/-- Join pieces with a separator. -/
def joinSep (sep : List Char) : List (List Char) → List Char
  | [] => []
  | [x] => x
  | x :: xs => x ++ sep ++ joinSep sep xs

/-- `VALID_NOTE_NAMES` (in source order, used verbatim in the error
message). -/
def validNoteNames : List (List Char) :=
  [chars "C", chars "C#", chars "Db", chars "D", chars "D#", chars "Eb",
   chars "E", chars "F", chars "F#", chars "Gb", chars "G", chars "G#",
   chars "Ab", chars "A", chars "A#", chars "Bb", chars "B"]

/-- `VALID_OCTAVES`. -/
def validOctaves : List (List Char) :=
  [chars "0", chars "1", chars "2", chars "3", chars "4", chars "5",
   chars "6", chars "7", chars "8"]

/-- Full match of `^([A-G][#b]?)(\d)$`: the groups (name, octave). -/
def matchNoteRegex (note : List Char) : Option (List Char × List Char) :=
  match note with
  | [l, d] =>
    if ('A' ≤ l ∧ l ≤ 'G') ∧ isAsciiDigit d then some ([l], [d]) else none
  | [l, a, d] =>
    if ('A' ≤ l ∧ l ≤ 'G') ∧ (a = '#' ∨ a = 'b') ∧ isAsciiDigit d then
      some ([l, a], [d])
    else none
  | _ => none

/-- `_validate_note_name`: `(is_valid, error_message)`. -/
def validateNoteName (note : List Char) : Bool × List Char :=
  if note = chars "~" then (true, [])
  else
    match matchNoteRegex note with
    | none =>
      (false, chars "Invalid note format '" ++ note ++
        chars "'. Use format: Note[#/b]Octave (e.g., C3, Eb4, F#5) or '~' for silence")
    | some (name, octave) =>
      if name ∈ validNoteNames then
        if octave ∈ validOctaves then (true, [])
        else (false, chars "Invalid octave '" ++ octave ++ chars "'. Valid octaves: 0-8")
      else
        (false, chars "Invalid note name '" ++ name ++ chars "'. Valid notes: " ++
          joinSep (chars ", ") validNoteNames)

/-- One pydantic validation error: its location path and message. -/
structure PyErr where
  loc : List (List Char)
  msg : List Char
deriving DecidableEq

/-- Prefix every error location with an outer field name. -/
def prefixErrs (k : List Char) (es : List PyErr) : List PyErr :=
  es.map (fun e => ⟨k :: e.loc, e.msg⟩)

/-- Pydantic collects the errors of *all* fields of a model: both
sides are validated and their error lists concatenated, in field
declaration order. -/
def eand : Except (List PyErr) α → Except (List PyErr) β →
    Except (List PyErr) (α × β)
  | .ok a, .ok b => .ok (a, b)
  | .error e1, .error e2 => .error (e1 ++ e2)
  | .error e1, .ok _ => .error e1
  | .ok _, .error e2 => .error e2

/-- Map over errors. -/
def emapErr (f : List PyErr → List PyErr) :
    Except (List PyErr) α → Except (List PyErr) α
  | .ok a => .ok a
  | .error e => .error (f e)

/-- Python `int(str)` (surrounding whitespace, optional sign, decimal
digits; the rarely-used underscore separators are not modelled). -/
def pyIntFromStr (s : List Char) : Option Int :=
  match pyStrip s with
  | '-' :: ds =>
    if ds ≠ [] ∧ ds.all isAsciiDigit then some (-(digitsToNat ds : Int)) else none
  | '+' :: ds =>
    if ds ≠ [] ∧ ds.all isAsciiDigit then some (digitsToNat ds : Int) else none
  | ds =>
    if ds ≠ [] ∧ ds.all isAsciiDigit then some (digitsToNat ds : Int) else none

/-- Structural worker for `natGcd` (Euclid's algorithm; the first
argument strictly decreases, so `a + 1` steps of fuel always
suffice). -/
def natGcdAux : Nat → Nat → Nat → Nat
  | 0, _, b => b
  | fuel + 1, a, b => if a = 0 then b else natGcdAux fuel (b % a) a

/-- Greatest common divisor, defined so that it reduces inside the
kernel (`Nat.gcd`'s well-founded definition does not). -/
def natGcd (a b : Nat) : Nat := natGcdAux (a + 1) a b

/-- An exact rational in lowest terms with a positive denominator
(the model of Python's float / true-division values; built so that
every operation reduces inside the kernel, which `ℚ` does not).
`den = 0` is a junk value that no guarded code path produces. -/
structure QR where
  num : Int
  den : Nat
deriving DecidableEq

/-- Normalise `n / d` to lowest terms. -/
def qmk (n : Int) (d : Nat) : QR :=
  let g := natGcd n.natAbs d
  if g = 0 then ⟨0, 0⟩ else ⟨n / (g : Int), d / g⟩

/-- Embed an integer. -/
def qofInt (n : Int) : QR := ⟨n, 1⟩

/-- Addition. -/
def qadd (a b : QR) : QR := qmk (a.num * b.den + b.num * a.den) (a.den * b.den)

/-- Multiplication. -/
def qmul (a b : QR) : QR := qmk (a.num * b.num) (a.den * b.den)

/-- Division (`a / b`; junk when `b` is zero, which every caller
guards against). -/
def qdiv (a b : QR) : QR :=
  if b.num < 0 then qmk (-(a.num * b.den)) (a.den * b.num.natAbs)
  else qmk (a.num * b.den) (a.den * b.num.natAbs)

/-- Strict comparison (cross multiplication; denominators are
non-negative). -/
def qlt (a b : QR) : Bool := a.num * (b.den : Int) < b.num * (a.den : Int)

/-- Scale by a power of ten. -/
def qmulPow10 (a : QR) (x : Nat) : QR := qmk (a.num * (10 : Int) ^ x) a.den

/-- Divide by a power of ten. -/
def qdivPow10 (a : QR) (x : Nat) : QR := qmk a.num (a.den * 10 ^ x)

/-- Negation. -/
def qneg (a : QR) : QR := ⟨-a.num, a.den⟩

/-- The rational value of the decimal literal `m / 10 ^ e`. -/
def floatVal (m : Int) (e : Nat) : QR := qmk m (10 ^ e)

/-- Python `float(str)`: optional sign, digits with an optional
decimal point, optional exponent (`inf` / `nan` are not modelled). -/
def pyFloatFromStr (s : List Char) : Option QR :=
  match pyStrip s with
  | '-' :: t => (mag t).map qneg
  | '+' :: t => mag t
  | t => mag t
where
  /-- Unsigned decimal with optional fraction and exponent. -/
  mag (t : List Char) : Option QR :=
    let ip := t.takeWhile isAsciiDigit
    let t1 := t.dropWhile isAsciiDigit
    let (fr, t2) : List Char × List Char :=
      match t1 with
      | '.' :: r => (r.takeWhile isAsciiDigit, r.dropWhile isAsciiDigit)
      | _ => ([], t1)
    if ip = [] ∧ fr = [] then none
    else
      let base : QR := floatVal (digitsToNat (ip ++ fr)) fr.length
      match t2 with
      | [] => some base
      | 'e' :: r => expo base r
      | 'E' :: r => expo base r
      | _ => none
  /-- Exponent part. -/
  expo (base : QR) (r : List Char) : Option QR :=
    let (eneg, r1) : Bool × List Char :=
      match r with
      | '+' :: r2 => (false, r2)
      | '-' :: r2 => (true, r2)
      | _ => (false, r)
    if r1 ≠ [] ∧ r1.all isAsciiDigit then
      let x : Nat := digitsToNat r1
      some (if eneg then qdivPow10 base x else qmulPow10 base x)
    else none

/-- Pydantic lax coercion to `int`: ints; floats with no fractional
part; numeric strings.  Bools are rejected. -/
def pyIntOf : Json → Option Int
  | .int n => some n
  | .float m e => if ((10 : Int) ^ e) ∣ m then some (m / 10 ^ e) else none
  | .str s => pyIntFromStr s
  | _ => none

/-- Pydantic lax coercion to `float`. -/
def pyFloatOf : Json → Option QR
  | .int n => some (qofInt n)
  | .float m e => some (floatVal m e)
  | .str s => pyFloatFromStr s
  | _ => none

/-- The validated `ChordDefinition` model. -/
structure ChordDefinition where
  progression : List (List (List Char))
  interval : List Char
  duration : List Char
  filter : Int
deriving DecidableEq

/-- The validated `MelodyDefinition` model. -/
structure MelodyDefinition where
  notes : List (List Char)
  interval : List Char
  duration : List Char
  waveform : List Char
  delay : QR
deriving DecidableEq

/-- The validated `DrumDefinition` model. -/
structure DrumDefinition where
  kick : List Int
  snare : List Int
  interval : List Char
deriving DecidableEq

/-- The validated `PatternData` model. -/
structure PatternData where
  bpm : Int
  chords : ChordDefinition
  melody : MelodyDefinition
  drums : Option DrumDefinition
deriving DecidableEq

/-- `TimeInterval` enum values. -/
def timeIntervalValues : List (List Char) :=
  [chars "1m", chars "2m", chars "4m", chars "8m", chars "8n"]

/-- `Waveform` enum values. -/
def waveformValues : List (List Char) :=
  [chars "sine", chars "triangle", chars "sawtooth", chars "square"]

/-- A required field of a model. -/
def vRequired (j : Json) (k : String) : Except (List PyErr) Json :=
  match j.get? k with
  | some v => .ok v
  | none => .error [⟨[chars k], chars "Field required"⟩]

/-- An `int` value with `ge` / `le` bounds. -/
def vIntValue (loc : List (List Char)) (lo hi : Int) (v : Json) :
    Except (List PyErr) Int :=
  match pyIntOf v with
  | none => .error [⟨loc, chars "Input should be a valid integer"⟩]
  | some n =>
    if n < lo then
      .error [⟨loc, chars "Input should be greater than or equal to " ++ renderInt lo⟩]
    else if hi < n then
      .error [⟨loc, chars "Input should be less than or equal to " ++ renderInt hi⟩]
    else .ok n

/-- A `float` value with `ge` / `le` bounds. -/
def vFloatValue (loc : List (List Char)) (lo hi : QR) (v : Json) :
    Except (List PyErr) QR :=
  match pyFloatOf v with
  | none => .error [⟨loc, chars "Input should be a valid number"⟩]
  | some q =>
    if qlt q lo then
      .error [⟨loc, chars "Input should be greater than or equal to the lower bound"⟩]
    else if qlt hi q then
      .error [⟨loc, chars "Input should be less than or equal to the upper bound"⟩]
    else .ok q

/-- A `str` value (`str_strip_whitespace=True` strips it). -/
def vStrValue (loc : List (List Char)) (v : Json) :
    Except (List PyErr) (List Char) :=
  match v with
  | .str s => .ok (pyStrip s)
  | _ => .error [⟨loc, chars "Input should be a valid string"⟩]

/-- A `str`-enum value: the raw value must be one of the members. -/
def vEnumValue (loc : List (List Char)) (allowed : List (List Char)) (v : Json) :
    Except (List PyErr) (List Char) :=
  match v with
  | .str s =>
    if s ∈ allowed then .ok s
    else .error [⟨loc, chars "Input should be one of the permitted values"⟩]
  | _ => .error [⟨loc, chars "Input should be one of the permitted values"⟩]

/-- Validate the elements of a list, indexing error locations. -/
def vElems (elemV : List (List Char) → Json → Except (List PyErr) α)
    (loc : List (List Char)) (i : Nat) :
    List Json → Except (List PyErr) (List α)
  | [] => .ok []
  | v :: rest =>
    match eand (elemV (loc ++ [natDigits i]) v) (vElems elemV loc (i + 1) rest) with
    | .ok (a, as2) => .ok (a :: as2)
    | .error es => .error es

/-- A `List[...]` field with a `min_length` bound: element errors are
collected for every element; a too-short list contributes a length
error (reported first). -/
def vListValue (elemV : List (List Char) → Json → Except (List PyErr) α)
    (loc : List (List Char)) (minLen : Nat) (v : Json) :
    Except (List PyErr) (List α) :=
  match v with
  | .arr xs =>
    if xs.length < minLen then
      match vElems elemV loc 0 xs with
      | .ok _ => .error [⟨loc, chars "List should have at least 1 item after validation"⟩]
      | .error es => .error (⟨loc, chars "List should have at least 1 item after validation"⟩ :: es)
    else vElems elemV loc 0 xs
  | _ => .error [⟨loc, chars "Input should be a valid list"⟩]

/-- The `progression` field of `ChordDefinition`. -/
def chordProgressionField (j : Json) : Except (List PyErr) (List (List (List Char))) :=
  match vRequired j "progression" with
  | .error es => .error es
  | .ok v =>
    vListValue (fun loc2 => vListValue (fun loc3 v3 => vStrValue loc3 v3) loc2 0)
      [chars "progression"] 1 v

/-- The `interval` field of `ChordDefinition`. -/
def chordIntervalField (j : Json) : Except (List PyErr) (List Char) :=
  match vRequired j "interval" with
  | .error es => .error es
  | .ok v => vEnumValue [chars "interval"] timeIntervalValues v

/-- The `duration` field of `ChordDefinition`. -/
def chordDurationField (j : Json) : Except (List PyErr) (List Char) :=
  match vRequired j "duration" with
  | .error es => .error es
  | .ok v => vEnumValue [chars "duration"] timeIntervalValues v

/-- The `filter` field of `ChordDefinition`. -/
def chordFilterField (j : Json) : Except (List PyErr) Int :=
  match vRequired j "filter" with
  | .error es => .error es
  | .ok v => vIntValue [chars "filter"] 100 2000 v

/-- `ChordDefinition(**d)`. -/
def buildChordDefinition (j : Json) : Except (List PyErr) ChordDefinition :=
  match j with
  | .obj _ =>
    match eand (chordProgressionField j)
        (eand (chordIntervalField j) (eand (chordDurationField j) (chordFilterField j))) with
    | .ok (p, (i, (d, f))) => .ok ⟨p, i, d, f⟩
    | .error es => .error es
  | _ => .error [⟨[], chars "Input should be a valid dictionary"⟩]

/-- The `notes` field of `MelodyDefinition`. -/
def melodyNotesField (j : Json) : Except (List PyErr) (List (List Char)) :=
  match vRequired j "notes" with
  | .error es => .error es
  | .ok v => vListValue (fun loc2 v2 => vStrValue loc2 v2) [chars "notes"] 1 v

/-- The `interval` field of `MelodyDefinition`. -/
def melodyIntervalField (j : Json) : Except (List PyErr) (List Char) :=
  match vRequired j "interval" with
  | .error es => .error es
  | .ok v => vEnumValue [chars "interval"] timeIntervalValues v

/-- The `duration` field of `MelodyDefinition`. -/
def melodyDurationField (j : Json) : Except (List PyErr) (List Char) :=
  match vRequired j "duration" with
  | .error es => .error es
  | .ok v => vEnumValue [chars "duration"] timeIntervalValues v

/-- The `waveform` field of `MelodyDefinition`. -/
def melodyWaveformField (j : Json) : Except (List PyErr) (List Char) :=
  match vRequired j "waveform" with
  | .error es => .error es
  | .ok v => vEnumValue [chars "waveform"] waveformValues v

/-- The `delay` field of `MelodyDefinition`. -/
def melodyDelayField (j : Json) : Except (List PyErr) QR :=
  match vRequired j "delay" with
  | .error es => .error es
  | .ok v => vFloatValue [chars "delay"] (qofInt 0) (qofInt 1) v

/-- `MelodyDefinition(**d)`. -/
def buildMelodyDefinition (j : Json) : Except (List PyErr) MelodyDefinition :=
  match j with
  | .obj _ =>
    match eand (melodyNotesField j) (eand (melodyIntervalField j)
        (eand (melodyDurationField j) (eand (melodyWaveformField j) (melodyDelayField j)))) with
    | .ok (n, (i, (d, (w, dl)))) => .ok ⟨n, i, d, w, dl⟩
    | .error es => .error es
  | _ => .error [⟨[], chars "Input should be a valid dictionary"⟩]

/-- The `validate_drum_pattern` field validator: every hit must be 0
or 1 (it runs after the `List[int]` coercion). -/
def vDrumHits (loc : List (List Char)) (hits : List Int) :
    Except (List PyErr) (List Int) :=
  if hits.all (fun h => h = 0 ∨ h = 1) then .ok hits
  else .error [⟨loc, chars "Value error, Drum patterns must only contain 0 (silence) or 1 (hit)"⟩]

/-- A plain `int` value (no bounds). -/
def vIntPlain (loc : List (List Char)) (v : Json) : Except (List PyErr) Int :=
  match pyIntOf v with
  | none => .error [⟨loc, chars "Input should be a valid integer"⟩]
  | some n => .ok n

/-- The `kick` field of `DrumDefinition` (list of ints, then the
0/1 field validator). -/
def drumKickField (j : Json) : Except (List PyErr) (List Int) :=
  match vRequired j "kick" with
  | .error es => .error es
  | .ok v =>
    match vListValue (fun loc2 v2 => vIntPlain loc2 v2) [chars "kick"] 1 v with
    | .error es => .error es
    | .ok hits => vDrumHits [chars "kick"] hits

/-- The `snare` field of `DrumDefinition`. -/
def drumSnareField (j : Json) : Except (List PyErr) (List Int) :=
  match vRequired j "snare" with
  | .error es => .error es
  | .ok v =>
    match vListValue (fun loc2 v2 => vIntPlain loc2 v2) [chars "snare"] 1 v with
    | .error es => .error es
    | .ok hits => vDrumHits [chars "snare"] hits

/-- The `interval` field of `DrumDefinition`. -/
def drumIntervalField (j : Json) : Except (List PyErr) (List Char) :=
  match vRequired j "interval" with
  | .error es => .error es
  | .ok v => vEnumValue [chars "interval"] timeIntervalValues v

/-- `DrumDefinition(**d)`. -/
def buildDrumDefinition (j : Json) : Except (List PyErr) DrumDefinition :=
  match j with
  | .obj _ =>
    match eand (drumKickField j) (eand (drumSnareField j) (drumIntervalField j)) with
    | .ok (k, (s, i)) => .ok ⟨k, s, i⟩
    | .error es => .error es
  | _ => .error [⟨[], chars "Input should be a valid dictionary"⟩]

/-- The `bpm` field of `PatternData`. -/
def patternBpmField (j : Json) : Except (List PyErr) Int :=
  match vRequired j "bpm" with
  | .error es => .error es
  | .ok v => vIntValue [chars "bpm"] 20 120 v

/-- The `chords` field of `PatternData`. -/
def patternChordsField (j : Json) : Except (List PyErr) ChordDefinition :=
  match vRequired j "chords" with
  | .error es => .error es
  | .ok v => emapErr (prefixErrs (chars "chords")) (buildChordDefinition v)

/-- The `melody` field of `PatternData`. -/
def patternMelodyField (j : Json) : Except (List PyErr) MelodyDefinition :=
  match vRequired j "melody" with
  | .error es => .error es
  | .ok v => emapErr (prefixErrs (chars "melody")) (buildMelodyDefinition v)

/-- The optional `drums` field of `PatternData` (absent or `None`
both mean no drums). -/
def patternDrumsField (j : Json) : Except (List PyErr) (Option DrumDefinition) :=
  match j.get? "drums" with
  | none => .ok none
  | some .null => .ok none
  | some v =>
    match emapErr (prefixErrs (chars "drums")) (buildDrumDefinition v) with
    | .ok d => .ok (some d)
    | .error es => .error es

/-- `PatternData(**pattern)`: validate every field, collecting all
errors (pydantic does not stop at the first failing field).  Keys not
named in the model are ignored (`extra='ignore'`, the pydantic v2
default). -/
def buildPatternData (j : Json) : Except (List PyErr) PatternData :=
  match j with
  | .obj _ =>
    match eand (patternBpmField j) (eand (patternChordsField j)
        (eand (patternMelodyField j) (patternDrumsField j))) with
    | .ok (b, (c, (m, d))) => .ok ⟨b, c, m, d⟩
    | .error es => .error es
  | _ => .error [⟨[], chars "Input should be a valid dictionary"⟩]

/-- Outcome of the raw note-name loops in
`_validate_pattern_structure`: all notes fine, or the first failing
note's message, or a raised exception (caught by the surrounding
`except`). -/
inductive NoteCheck where
  | ok
  | bad (msg : List Char)
  | exn (msg : List Char)

/-- Check one raw note value with `_validate_note_name` (a non-string
raises `TypeError` inside `re.match`). -/
def checkNoteValue : Json → NoteCheck
  | .str s =>
    match validateNoteName s with
    | (true, _) => .ok
    | (false, msg) => .bad msg
  | _ => .exn (chars "expected string or bytes-like object")

/-- Check a list of raw note values, stopping at the first failure. -/
def checkNoteList : List Json → NoteCheck
  | [] => .ok
  | v :: rest =>
    match checkNoteValue v with
    | .ok => checkNoteList rest
    | r => r

/-- `for chord in pattern['chords']['progression']: for note in chord`
with `_validate_note_name` on each note, stopping at the first
failure.  Missing keys or non-iterable values raise, which the
surrounding `except` turns into a generic failure. -/
def checkChordNotes (j : Json) : NoteCheck :=
  match j.get? "chords" with
  | none => .exn (chars "'chords'")
  | some ch =>
    match ch.get? "progression" with
    | none => .exn (chars "'progression'")
    | some pr =>
      match pr.iter? with
      | none => .exn (chars "object is not iterable")
      | some chordsList => goChords chordsList
where
  /-- Iterate the chords. -/
  goChords : List Json → NoteCheck
    | [] => .ok
    | chord :: rest =>
      match chord.iter? with
      | none => .exn (chars "object is not iterable")
      | some notes =>
        match checkNoteList notes with
        | .ok => goChords rest
        | r => r

/-- `for note in pattern['melody']['notes']` with
`_validate_note_name` on each note. -/
def checkMelodyNotes (j : Json) : NoteCheck :=
  match j.get? "melody" with
  | none => .exn (chars "'melody'")
  | some me =>
    match me.get? "notes" with
    | none => .exn (chars "'notes'")
    | some no =>
      match no.iter? with
      | none => .exn (chars "object is not iterable")
      | some notes => checkNoteList notes

/-- Abbreviated rendering of `str(ValidationError)`: the error count
and, for each error, its dotted location and message (pydantic's exact
layout carries the same information). -/
def renderPyErrs (es : List PyErr) : List Char :=
  natDigits es.length ++ chars " validation errors for PatternData\n" ++
    joinSep ['\n'] (es.map (fun e => joinSep ['.'] e.loc ++ '\n' :: ' ' :: ' ' :: e.msg))

/-- `_validate_pattern_structure`: pydantic validation of the whole
record (aggregating field errors), then the raw note-name loops over
chords and melody (first failure only).  Any exception is caught and
reported as `Pattern validation failed: ...`. -/
def validatePatternStructure (j : Json) : Bool × List Char :=
  match buildPatternData j with
  | .error es => (false, chars "Pattern validation failed: " ++ renderPyErrs es)
  | .ok _ =>
    match checkChordNotes j with
    | .bad m => (false, chars "Invalid note in chord: " ++ m)
    | .exn m => (false, chars "Pattern validation failed: " ++ m)
    | .ok =>
      match checkMelodyNotes j with
      | .bad m => (false, chars "Invalid note in melody: " ++ m)
      | .exn m => (false, chars "Pattern validation failed: " ++ m)
      | .ok => (true, [])

/-- The serializer's fixed first line (the decorative leading emoji is
transliterated away; comment content never affects parsing). -/
def headerLine : List Char := chars "// STRUDEL-MCP - Ambient Pattern (Tone.js format)"

/-- Render one chord line: `            [<'notes'>],`. -/
def chordLine (notes : List Json) : List Char :=
  chars "            [" ++
    joinSep (chars ", ") (notes.map (fun n => '\'' :: pyStr n ++ ['\''])) ++
    chars "],"

/-- The drum block lines of the serializer. -/
def drumsBody (kicks snares : List Json) (dInterval : Json) : List (List Char) :=
  [chars ",",
   chars "    ",
   chars "    drums: \x7b",
   chars "        kick: [" ++ joinSep (chars ", ") (kicks.map pyStr) ++ chars "],",
   chars "        snare: [" ++ joinSep (chars ", ") (snares.map pyStr) ++ chars "],",
   chars "        interval: '" ++ pyStr dInterval ++ ['\''],
   chars "    \x7d"]

/-- Extract and render the drum block (when `pattern.get('drums')` is
truthy). -/
def drumsLines (drumsV : Json) : Option (List (List Char)) := do
  let kickV ← drumsV.get? "kick"
  let kicks ← kickV.iter?
  let snareV ← drumsV.get? "snare"
  let snares ← snareV.iter?
  let dInterval ← drumsV.get? "interval"
  pure (drumsBody kicks snares dInterval)

/-- The header and chords lines of the serializer. -/
def formatHead (bpmV cInterval cDuration cFilter : Json)
    (chordNoteLists : List (List Json)) (description timestamp : List Char) :
    List (List Char) :=
  [headerLine,
   chars "// " ++ description,
   chars "// TIMESTAMP: " ++ timestamp,
   [],
   chars "(\x7b",
   chars "    bpm: " ++ pyStr bpmV ++ [','],
   chars "    ",
   chars "    chords: \x7b",
   chars "        progression: ["] ++
  chordNoteLists.map chordLine ++
  [chars "        ],",
   chars "        interval: '" ++ pyStr cInterval ++ chars "',",
   chars "        duration: '" ++ pyStr cDuration ++ chars "',",
   chars "        filter: " ++ pyStr cFilter,
   chars "    \x7d,",
   chars "    "]

/-- The melody lines of the serializer. -/
def formatMelody (mInterval mDuration mWave mDelay : Json)
    (notesList : List Json) : List (List Char) :=
  [chars "    melody: \x7b",
   chars "        notes: [" ++
     joinSep (chars ", ") (notesList.map (fun n => '\'' :: pyStr n ++ ['\''])) ++
     chars "],",
   chars "        interval: '" ++ pyStr mInterval ++ chars "',",
   chars "        duration: '" ++ pyStr mDuration ++ chars "',",
   chars "        waveform: '" ++ pyStr mWave ++ chars "',",
   chars "        delay: " ++ pyStr mDelay,
   chars "    \x7d"]

/-- The closing lines of the serializer. -/
def formatTail : List (List Char) :=
  [chars "\x7d)",
   []]

/-- The serializer's header + chords block: the lookups
`pattern['bpm']`, `pattern['chords'][...]` and the chord lines. -/
def formatChordsPart (pattern : Json) (description timestamp : List Char) :
    Option (List (List Char)) := do
  let bpmV ← pattern.get? "bpm"
  let chordsV ← pattern.get? "chords"
  let progV ← chordsV.get? "progression"
  let chordsList ← progV.iter?
  let chordNoteLists ← chordsList.mapM Json.iter?
  let cInterval ← chordsV.get? "interval"
  let cDuration ← chordsV.get? "duration"
  let cFilter ← chordsV.get? "filter"
  pure (formatHead bpmV cInterval cDuration cFilter chordNoteLists description timestamp)

/-- The serializer's melody block: the lookups
`pattern['melody'][...]` and the melody lines. -/
def formatMelodyPart (pattern : Json) : Option (List (List Char)) := do
  let melodyV ← pattern.get? "melody"
  let notesV ← melodyV.get? "notes"
  let notesList ← notesV.iter?
  let mInterval ← melodyV.get? "interval"
  let mDuration ← melodyV.get? "duration"
  let mWave ← melodyV.get? "waveform"
  let mDelay ← melodyV.get? "delay"
  pure (formatMelody mInterval mDuration mWave mDelay notesList)

/-- The serializer's optional drums block
(`if pattern.get('drums'):`). -/
def formatDrumsPart (pattern : Json) : Option (List (List Char)) := do
  let drumsV ← pattern.getOrNull "drums"
  if drumsV.truthy then drumsLines drumsV else pure []

/-- `_format_pattern_js pattern description`, with the
`datetime.now()` timestamp passed explicitly.  `none` models the
`KeyError` / `TypeError` raised when a required key is missing or a
value has the wrong shape. -/
def formatPatternJs (pattern : Json) (description timestamp : List Char) :
    Option (List Char) := do
  let a ← formatChordsPart pattern description timestamp
  let b ← formatMelodyPart pattern
  let c ← formatDrumsPart pattern
  pure (joinLines (a ++ b ++ c ++ formatTail))

/-- The files the program touches: `patterns.js`, its rolling backup
`patterns.js.bak`, and the temporary `patterns.js.tmp`.  `none` means
the file does not exist. -/
structure FS where
  patterns : Option (List Char)
  backup : Option (List Char)
  temp : Option (List Char)
deriving DecidableEq

/-- Primitive file operations, in the order the code performs them. -/
inductive FileOp where
  | copyToBackup
  | writeTemp (content : List Char)
  | renameTempToPatterns
  | openTruncatePatterns
  | writePatternsData (content : List Char)
deriving DecidableEq

/-- Effect of one primitive file operation. -/
def applyOp (fs : FS) : FileOp → FS
  | .copyToBackup => { fs with backup := fs.patterns }
  | .writeTemp c => { fs with temp := some c }
  | .renameTempToPatterns => { fs with patterns := fs.temp, temp := none }
  | .openTruncatePatterns => { fs with patterns := some [] }
  | .writePatternsData c => { fs with patterns := some c }

/-- Run a list of file operations. -/
def runOps (fs : FS) (ops : List FileOp) : FS := ops.foldl applyOp fs

/-- The operations `_write_pattern_file` performs: copy the current
file to the backup (when it exists), write the full content to the
temporary file, then one atomic rename into place. -/
def writePatternFileOps (fs : FS) (content : List Char) : List FileOp :=
  (if fs.patterns.isSome then [.copyToBackup] else []) ++
    [.writeTemp content, .renameTempToPatterns]

/-- `_write_pattern_file`: returns `(success, message)` and the new
file-system state together with the trace of operations.  (Permission
failures are not modelled; the file system here is always
writable.) -/
def writePatternFile (fs : FS) (content : List Char) :
    (Bool × List Char) × FS × List FileOp :=
  ((true, chars "Pattern file updated successfully"),
   runOps fs (writePatternFileOps fs content),
   writePatternFileOps fs content)

/-- `strudel_edit_pattern`: optionally validate, then format, then
write; returns the reply text, the resulting file-system state, and
the trace of file operations performed. -/
def strudelEditPattern (patternData : Json)
    (editDescription : List Char) (validateBeforeWrite : Bool)
    (timestamp : List Char) (fs : FS) :
    List Char × FS × List FileOp :=
  if validateBeforeWrite ∧ ¬(validatePatternStructure patternData).1 then
    (chars "Pattern validation failed. Cannot write invalid pattern:\n" ++
      (validatePatternStructure patternData).2, fs, [])
  else
    match formatPatternJs patternData editDescription timestamp with
    | none =>
      (chars "Error: Unexpected error during pattern edit", fs, [])
    | some jsContent =>
      let r := writePatternFile fs jsContent
      (chars "Pattern updated successfully!\n\nChanges: " ++ editDescription,
       r.2.1, r.2.2)

/-- Is a raw value the rest marker (`note == "~"`)? -/
def isTildeJson : Json → Bool
  | .str s => s = chars "~"
  | _ => false

/-- Python `sum` over raw values (numbers and bools add; anything
else raises `TypeError`, modelled as `none`). -/
def pySum : List Json → Option QR
  | [] => some (qofInt 0)
  | .int n :: rest => (pySum rest).map (fun q => qadd q (qofInt n))
  | .float m e :: rest => (pySum rest).map (fun q => qadd q (floatVal m e))
  | .bool b :: rest => (pySum rest).map (fun q => qadd q (qofInt (if b then 1 else 0)))
  | _ :: _ => none

/-- The analyzer's sort key `lambda n: (n[-1], n[:-1])`; `none` models
the `IndexError` on an empty string. -/
def noteKeyStr (s : List Char) : Option (Char × List Char) :=
  match s.getLast? with
  | some c => some (c, s.dropLast)
  | none => none

/-- Lexicographic string comparison (Python `<` on `str`). -/
def strLt : List Char → List Char → Bool
  | [], [] => false
  | [], _ :: _ => true
  | _ :: _, [] => false
  | a :: as, b :: bs => if a = b then strLt as bs else decide (a < b)

/-- Python `<` on the key tuples `(last char, prefix)`. -/
def keyLtB (x y : Char × List Char) : Bool :=
  decide (x.1 < y.1) || (x.1 = y.1 && strLt x.2 y.2)

/-- Insert into a key-sorted list. -/
def insertByKey (p : List Char × (Char × List Char)) :
    List (List Char × (Char × List Char)) →
    List (List Char × (Char × List Char))
  | [] => [p]
  | q :: rest => if keyLtB p.2 q.2 then p :: q :: rest else q :: insertByKey p rest

/-- Keep the first occurrence of each string (the effect of
collecting into a Python set, given the subsequent injective-key
sort). -/
def dedupKeepFirst : List (List Char) → List (List Char)
  | [] => []
  | x :: rest => x :: (dedupKeepFirst rest).filter (fun y => y ≠ x)

/-- `sorted(all_notes, key=lambda n: (n[-1], n[:-1]))`: `none` models
the `IndexError` on an empty note string.  The key is injective on
distinct strings, so the sorted order is well defined although a
Python set is unordered. -/
def sortedByNoteKey (ns : List (List Char)) : Option (List (List Char)) :=
  match ns.mapM (fun s => (noteKeyStr s).map (fun k => (s, k))) with
  | none => none
  | some ps => some ((ps.foldr insertByKey []).map (fun p => p.1))

/-- Extract the collected note values as strings: the analyzer's
set insertion plus sort key raise on any non-string note, modelled as
`none`. -/
def notesAsStrs : List Json → Option (List (List Char))
  | [] => some []
  | .str s :: rest => (notesAsStrs rest).map (fun l => s :: l)
  | _ :: _ => none

/-- Round half to even (the behaviour of Python's `round` on exact
values; the model works with exact rationals rather than binary
floats). -/
def roundHalfEven (q : QR) : Int :=
  let f := Int.fdiv q.num q.den
  let r2 := 2 * (q.num - f * q.den)
  if r2 < (q.den : Int) then f
  else if (q.den : Int) < r2 then f + 1
  else if f % 2 = 0 then f else f + 1

/-- `round(x, 2)`. -/
def round2 (q : QR) : QR := qmk (roundHalfEven (qmulPow10 q 2)) 100

/-- Numeric comparison of a raw value against an int (`bpm < 30`);
non-numbers raise `TypeError`, modelled as `none`. -/
def jsonNumLt (j : Json) (k : Int) : Option Bool :=
  match j with
  | .int n => some (n < k)
  | .float m e => some (qlt (floatVal m e) (qofInt k))
  | .bool b => some ((if b then (1 : Int) else 0) < k)
  | _ => none

/-- The analyzer's tempo bands. -/
def tempoDescription (bpm : Json) : Option (List Char) := do
  let a ← jsonNumLt bpm 30
  let b ← jsonNumLt bpm 40
  let c ← jsonNumLt bpm 60
  let d ← jsonNumLt bpm 80
  let e ← jsonNumLt bpm 100
  pure (if a then chars "Very Slow - Extremely Meditative"
    else if b then chars "Very Slow - Meditative"
    else if c then chars "Slow - Ambient"
    else if d then chars "Moderate - Relaxed"
    else if e then chars "Moderate - Steady"
    else chars "Faster - Energetic")

/-- The analyzer's per-drum-channel statistics. -/
structure DrumAnalysis where
  kick_hits : QR
  snare_hits : QR
  total_steps : Nat
  kick_density : QR
  snare_density : QR
deriving DecidableEq

/-- The analyzer's result record. -/
structure Analysis where
  bpm : Json
  tempo_description : List Char
  all_notes_used : List (List Char)
  note_count : Nat
  chord_count : Nat
  melody_note_count : Nat
  melody_density : QR
  filter_cutoff : Json
  waveform : Json
  delay_amount : Json
  drums : Option DrumAnalysis

/-- Collect all non-rest notes from chords and melody, in iteration
order (the contents of the analyzer's `all_notes` set). -/
def collectAllNotes (pattern : Json) : Option (List (List Char)) := do
  let chordsV ← pattern.get? "chords"
  let progV ← chordsV.get? "progression"
  let chordsList ← progV.iter?
  let chordNoteLists ← chordsList.mapM Json.iter?
  let melodyV ← pattern.get? "melody"
  let notesV ← melodyV.get? "notes"
  let melodyNotes ← notesV.iter?
  notesAsStrs ((chordNoteLists.map (fun ch => ch.filter (fun n => !isTildeJson n))).flatten ++
    melodyNotes.filter (fun n => !isTildeJson n))

/-- The analyzer's drum block: `None` when `pattern.get('drums')` is
falsy; the kick and snare hit counts and densities otherwise.  Both
densities divide by `len(pattern['drums']['kick'])` with no zero
guard: an empty kick list raises `ZeroDivisionError` (`none`). -/
def analyzeDrums (pattern : Json) : Option (Option DrumAnalysis) := do
  let drumsV ← pattern.getOrNull "drums"
  if drumsV.truthy then do
    let kickV ← drumsV.get? "kick"
    let kicks ← kickV.iter?
    let snareV ← drumsV.get? "snare"
    let snares ← snareV.iter?
    let kickHits ← pySum kicks
    let snareHits ← pySum snares
    if kicks.length = 0 then none
    else
      some (some ⟨kickHits, snareHits, kicks.length,
        qdiv kickHits (qofInt kicks.length), qdiv snareHits (qofInt kicks.length)⟩)
  else pure none

/-- The analyzer's melody-density computation, with its emptiness
guard (`... if melody_notes else 0`). -/
def melodyDensityOf (melodyNotes : List Json) : QR :=
  let silence := (melodyNotes.filter isTildeJson).length
  if melodyNotes.length ≠ 0 then
    qdiv (qofInt ((melodyNotes.length : Int) - (silence : Int))) (qofInt melodyNotes.length)
  else qofInt 0

/-- The record-assembly tail of `_analyze_pattern`. -/
def analyzeRest (pattern : Json) (sortedNotes : List (List Char))
    (bpmV : Json) (tempo : List Char) (drumInfo : Option DrumAnalysis) :
    Option Analysis := do
  let chordsV ← pattern.get? "chords"
  let progV ← chordsV.get? "progression"
  let chordsList ← progV.iter?
  let melodyV ← pattern.get? "melody"
  let notesV ← melodyV.get? "notes"
  let melodyNotes ← notesV.iter?
  let filterV ← chordsV.get? "filter"
  let waveV ← melodyV.get? "waveform"
  let delayV ← melodyV.get? "delay"
  pure ⟨bpmV, tempo, sortedNotes, sortedNotes.length, chordsList.length,
    melodyNotes.length, round2 (melodyDensityOf melodyNotes),
    filterV, waveV, delayV, drumInfo⟩

/-- `_analyze_pattern`: `none` models any raised exception
(missing keys, non-string notes, non-numeric drum hits, empty kick
list). -/
def analyzePattern (pattern : Json) : Option Analysis := do
  let allNotes ← collectAllNotes pattern
  let sortedNotes ← sortedByNoteKey (dedupKeepFirst allNotes)
  let bpmV ← pattern.get? "bpm"
  let tempo ← tempoDescription bpmV
  let drumInfo ← analyzeDrums pattern
  analyzeRest pattern sortedNotes bpmV tempo drumInfo

/-- A queued change, as the dict built by `schedule_change` (times are
abstract instants). -/
structure Change where
  id : Int
  find : List Char
  replace : List Char
  description : Option (List Char)
  scheduled_at : Int
  execute_at : Int
  status : List Char
deriving DecidableEq

/-- The queue-submission payload (the `QueuedChange` pydantic model:
`delay_seconds` is a non-negative integer, `description` optional). -/
structure QueuedChange where
  find : List Char
  replace : List Char
  delay_seconds : Nat
  description : Option (List Char)
deriving DecidableEq

/-- The server's module-level mutable state: the pattern file, the
change queue, the id counter, and APScheduler's registry of pending
job ids. -/
structure ServerState where
  patternsFile : Option (List Char)
  change_queue : List Change
  change_id_counter : Int
  scheduledJobs : List Int
deriving DecidableEq

/-- The outcome of awaiting the fallback agent: its reply text, or the
exception it raised. -/
inductive FallbackOutcome where
  | success (text : List Char)
  | failure (err : List Char)
deriving DecidableEq

/-- Observable events of one queued-change execution, in program
order. -/
inductive QEvent where
  | readPatterns
  | fileOp (op : FileOp)
  | fallbackInvoke (prompt : List Char)
  | removeFromQueue (id : Int)
deriving DecidableEq

/-- The result dict of `execute_find_replace`. -/
structure FRResult where
  success : Bool
  method : List Char
  message : List Char
deriving DecidableEq

/-- The natural-language instruction synthesized for the fallback
agent (`description or f'Replace {find} with {replace}'`). -/
def fallbackPrompt (find repl : List Char) (description : Option (List Char)) :
    List Char :=
  chars "The scheduled find/replace failed because the text was not found. Please make this change: " ++
    match description with
    | some d =>
      if d.isEmpty then chars "Replace " ++ find ++ chars " with " ++ repl else d
    | none => chars "Replace " ++ find ++ chars " with " ++ repl

/-- `execute_find_replace`: read the pattern file; when `find` occurs,
globally replace it and write the file back directly (`open(..., 'w')`
truncates, then the data is written); otherwise await the fallback
agent once.  Returns the result dict, the pattern file afterwards, and
the event trace.  (The fallback's own tool use goes through the MCP
server, not through this function, so the file is unchanged here on
that path; a missing file raises, caught as an error result.) -/
def executeFindReplace (find repl : List Char) (description : Option (List Char))
    (fb : FallbackOutcome) (patternsFile : Option (List Char)) :
    FRResult × Option (List Char) × List QEvent :=
  match patternsFile with
  | none =>
    (⟨false, chars "error", chars "Error executing change: patterns.js not found"⟩,
     none, [.readPatterns])
  | some content =>
    if occursIn find content then
      let newContent := pyReplace find repl content
      (⟨true, chars "find_replace",
        chars "Successfully replaced '" ++ find.take 50 ++ chars "...' with '" ++
          repl.take 50 ++ chars "...'"⟩,
       some newContent,
       [.readPatterns, .fileOp .openTruncatePatterns,
        .fileOp (.writePatternsData newContent)])
    else
      match fb with
      | .success text =>
        (⟨true, chars "agent_fallback",
          chars "Agent handled the change: " ++ text.take 200 ++ chars "..."⟩,
         some content,
         [.readPatterns, .fallbackInvoke (fallbackPrompt find repl description)])
      | .failure err =>
        (⟨false, chars "error", chars "Error executing change: " ++ err⟩,
         some content,
         [.readPatterns, .fallbackInvoke (fallbackPrompt find repl description)])

/-- `process_queued_change`: await `execute_find_replace` (including
its fallback call), and only after it resolves remove the entry from
the queue. -/
def processQueuedChange (st : ServerState) (cid : Int) (ch : Change)
    (fb : FallbackOutcome) : ServerState × FRResult × List QEvent :=
  let r := executeFindReplace ch.find ch.replace ch.description fb st.patternsFile
  ({ st with
      patternsFile := r.2.1,
      change_queue := st.change_queue.filter (fun c => c.id ≠ cid) },
   r.1, r.2.2 ++ [.removeFromQueue cid])

/-- The reply of `schedule_change`. -/
structure ScheduleResp where
  change_id : Int
  execute_at : Int
  status : List Char
deriving DecidableEq

/-- `schedule_change`: assign the next id, append the pending entry,
and either register a delayed APScheduler job or (for zero delay)
create an immediate task; the task to run is returned explicitly. -/
def scheduleChange (st : ServerState) (now : Int) (change : QueuedChange) :
    ServerState × ScheduleResp × Option (Int × Change) :=
  let cid := st.change_id_counter + 1
  let executeAt := now + (change.delay_seconds : Int)
  let changeDict : Change :=
    ⟨cid, change.find, change.replace, change.description, now, executeAt,
     chars "pending"⟩
  let st1 := { st with
    change_id_counter := cid,
    change_queue := st.change_queue ++ [changeDict] }
  if change.delay_seconds > 0 then
    ({ st1 with scheduledJobs := st1.scheduledJobs ++ [cid] },
     ⟨cid, executeAt, chars "scheduled"⟩, none)
  else
    (st1, ⟨cid, executeAt, chars "scheduled"⟩, some (cid, changeDict))

/-- `cancel_change`: `.error 404` models the `HTTPException(404,
"Change not found")` raised when the id is not in the queue; otherwise
the scheduler job (if any — removal of a missing job is swallowed) and
the queue entry are removed. -/
def cancelChange (st : ServerState) (changeId : Int) :
    Except Nat (ServerState × List Char × List Char) :=
  match st.change_queue.find? (fun c => c.id == changeId) with
  | none => .error 404
  | some _ =>
    .ok ({ st with
            scheduledJobs := st.scheduledJobs.filter (fun i => i ≠ changeId),
            change_queue := st.change_queue.filter (fun c => c.id ≠ changeId) },
      chars "cancelled", renderInt changeId)

/-- Build an object from string keys. -/
def jobj (kvs : List (String × Json)) : Json :=
  .obj (kvs.map (fun kv => (chars kv.1, kv.2)))

/-- Build an array of strings. -/
def jstrs (ss : List String) : Json :=
  .arr (ss.map (fun s => .str (chars s)))

/-- A well-formed chords section. -/
def sampleChords : Json := jobj
  [("progression", .arr [jstrs ["C3", "Eb3", "G3"], jstrs ["Ab3", "C4"]]),
   ("interval", .str (chars "4m")),
   ("duration", .str (chars "2m")),
   ("filter", .int 600)]

/-- A well-formed melody section. -/
def sampleMelody : Json := jobj
  [("notes", jstrs ["C5", "~", "G5"]),
   ("interval", .str (chars "2m")),
   ("duration", .str (chars "1m")),
   ("waveform", .str (chars "triangle")),
   ("delay", .float 5 1)]

/-- A well-formed drums section. -/
def sampleDrums : Json := jobj
  [("kick", .arr [.int 1, .int 0, .int 0, .int 0]),
   ("snare", .arr [.int 0, .int 0, .int 1, .int 0]),
   ("interval", .str (chars "4m"))]

/-- A record that passes schema validation (with drums). -/
def samplePattern : Json := jobj
  [("bpm", .int 30), ("chords", sampleChords), ("melody", sampleMelody),
   ("drums", sampleDrums)]

/-- A record that passes schema validation (no drums key at all). -/
def samplePatternNoDrums : Json := jobj
  [("bpm", .int 30), ("chords", sampleChords), ("melody", sampleMelody)]

/-- A record with two schema violations: `bpm` above its upper bound
and `chords.filter` below its lower bound. -/
def patternTwoBadFields : Json := jobj
  [("bpm", .int 150),
   ("chords", jobj
     [("progression", .arr [jstrs ["C3"]]),
      ("interval", .str (chars "4m")),
      ("duration", .str (chars "2m")),
      ("filter", .int 50)]),
   ("melody", sampleMelody)]

/-- A structurally valid record with two invalid note names: one in
the chords (`J3`) followed by another in the melody (`Q5`). -/
def patternTwoBadNotes : Json := jobj
  [("bpm", .int 30),
   ("chords", jobj
     [("progression", .arr [jstrs ["C3", "J3"]]),
      ("interval", .str (chars "4m")),
      ("duration", .str (chars "2m")),
      ("filter", .int 600)]),
   ("melody", jobj
     [("notes", jstrs ["Q5", "C5"]),
      ("interval", .str (chars "2m")),
      ("duration", .str (chars "1m")),
      ("waveform", .str (chars "triangle")),
      ("delay", .float 5 1)])]

/-- A record whose `drums.kick` is the empty list (rejected by the
schema, but the analyzer can still be fed it). -/
def patternEmptyKick : Json := jobj
  [("bpm", .int 30), ("chords", sampleChords), ("melody", sampleMelody),
   ("drums", jobj
     [("kick", .arr []),
      ("snare", .arr [.int 1, .int 0]),
      ("interval", .str (chars "4m"))])]

/-- A record whose kick has two steps while the snare has four (three
of them hits). -/
def patternKick2Snare4 : Json := jobj
  [("bpm", .int 30), ("chords", sampleChords), ("melody", sampleMelody),
   ("drums", jobj
     [("kick", .arr [.int 1, .int 0]),
      ("snare", .arr [.int 1, .int 1, .int 1, .int 0]),
      ("interval", .str (chars "4m"))])]

/-- A record whose melody notes list is empty (rejected by the
schema; exercises the analyzer's density guard). -/
def patternEmptyMelody : Json := jobj
  [("bpm", .int 30), ("chords", sampleChords),
   ("melody", jobj
     [("notes", .arr []),
      ("interval", .str (chars "2m")),
      ("duration", .str (chars "1m")),
      ("waveform", .str (chars "triangle")),
      ("delay", .float 5 1)]),
   ("drums", sampleDrums)]

/-- `samplePattern` with fields not named in the data model: an extra
`hihat` array inside the drums section and an unknown top-level
key. -/
def patternExtraFields : Json := jobj
  [("bpm", .int 30), ("chords", sampleChords), ("melody", sampleMelody),
   ("drums", jobj
     [("kick", .arr [.int 1, .int 0, .int 0, .int 0]),
      ("snare", .arr [.int 0, .int 0, .int 1, .int 0]),
      ("hihat", .arr [.int 1, .int 0, .int 1, .int 0]),
      ("interval", .str (chars "4m"))]),
   ("zzz", .str (chars "unknown"))]

/-- A record that passes schema validation with `bpm` given as the
numeric string `"030"` (pydantic's lax string-to-int coercion accepts
it). -/
def patternStrBpm : Json := jobj
  [("bpm", .str (chars "030")), ("chords", sampleChords),
   ("melody", sampleMelody)]

/-- The queue scenario's initial server state: a store containing
`bpm: 30`, an empty queue. -/
def queueScenarioStart : ServerState := ⟨some (chars "bpm: 30"), [], 0, []⟩

/-- The queue scenario's request: replace `bpm: 30` by `bpm: 60`
immediately. -/
def queueScenarioReq : QueuedChange :=
  ⟨chars "bpm: 30", chars "bpm: 60", 0, some (chars "speed up")⟩

/-- The scenario after `schedule_change` ran. -/
def queueScenarioScheduled : ServerState × ScheduleResp × Option (Int × Change) :=
  scheduleChange queueScenarioStart 0 queueScenarioReq

/-- The scenario after the immediately-created task fired. -/
def queueScenarioFired : ServerState × FRResult × List QEvent :=
  match queueScenarioScheduled.2.2 with
  | some ic => processQueuedChange queueScenarioScheduled.1 ic.1 ic.2
      (.success (chars "ok"))
  | none => (queueScenarioScheduled.1, ⟨false, [], []⟩, [])

/-- Is an event the fallback-agent invocation? -/
def isFallbackEvent : QEvent → Bool
  | .fallbackInvoke _ => true
  | _ => false

/-- Shape check: a list value. -/
def asArr : Json → Option (List Json)
  | .arr xs => some xs
  | _ => none

/-- Shape check: a string value. -/
def asStr : Json → Option (List Char)
  | .str s => some s
  | _ => none

/-- The raw values the serializer reads from a record (chords and
melody notes are strings for every record that passes validation; the
numeric leaves are kept as raw values). -/
structure RenderCore where
  bpmLit : Json
  progression : List (List (List Char))
  cInterval : List Char
  cDuration : List Char
  filterLit : Json
  notes : List (List Char)
  mInterval : List Char
  mDuration : List Char
  mWaveform : List Char
  delayLit : Json
  drums : Option (List Json × List Json × List Char)

/-- Extract the chords part of a record's render core. -/
def coreChords (j : Json) :
    Option (List (List (List Char)) × List Char × List Char × Json) := do
  let chordsV ← j.get? "chords"
  let progV ← chordsV.get? "progression"
  let chordArrs ← asArr progV
  let prog ← chordArrs.mapM (fun ch => (asArr ch).bind notesAsStrs)
  let iv ← (chordsV.get? "interval").bind asStr
  let du ← (chordsV.get? "duration").bind asStr
  let fi ← chordsV.get? "filter"
  pure (prog, iv, du, fi)

/-- Extract the melody part of a record's render core. -/
def coreMelody (j : Json) :
    Option (List (List Char) × List Char × List Char × List Char × Json) := do
  let melodyV ← j.get? "melody"
  let notesV ← melodyV.get? "notes"
  let notesArr ← asArr notesV
  let no ← notesAsStrs notesArr
  let iv ← (melodyV.get? "interval").bind asStr
  let du ← (melodyV.get? "duration").bind asStr
  let wa ← (melodyV.get? "waveform").bind asStr
  let de ← melodyV.get? "delay"
  pure (no, iv, du, wa, de)

/-- Extract the drums part of a record's render core. -/
def coreDrums (j : Json) :
    Option (Option (List Json × List Json × List Char)) := do
  let drumsV ← j.getOrNull "drums"
  if drumsV.truthy then do
    let k ← (drumsV.get? "kick").bind asArr
    let s ← (drumsV.get? "snare").bind asArr
    let i ← (drumsV.get? "interval").bind asStr
    pure (some (k, s, i))
  else pure none

/-- Extract a record's render core. -/
def coreOf (j : Json) : Option RenderCore := do
  let bp ← j.get? "bpm"
  let ch ← coreChords j
  let me ← coreMelody j
  let dr ← coreDrums j
  pure ⟨bp, ch.1, ch.2.1, ch.2.2.1, ch.2.2.2,
        me.1, me.2.1, me.2.2.1, me.2.2.2.1, me.2.2.2.2, dr⟩

/-- Is a raw value a numeric literal (an int or a float)? -/
def isNumLit : Json → Bool
  | .int _ => true
  | .float _ _ => true
  | _ => false

/-- Are all the numeric leaves of a record actual numbers (as opposed
to the numeric strings pydantic's lax coercion also accepts)? -/
def numericLits (j : Json) : Bool :=
  match coreOf j with
  | some c =>
    isNumLit c.bpmLit && isNumLit c.filterLit && isNumLit c.delayLit &&
      (match c.drums with
       | some kv => kv.1.all isNumLit && kv.2.1.all isNumLit
       | none => true)
  | none => false

/-- The serializer's output as a function of the render core. -/
def renderCore (c : RenderCore) (d ts : List Char) : List Char :=
  joinLines (
    formatHead c.bpmLit (.str c.cInterval) (.str c.cDuration) c.filterLit
      (c.progression.map (fun ch => ch.map Json.str)) d ts ++
    formatMelody (.str c.mInterval) (.str c.mDuration) (.str c.mWaveform)
      c.delayLit (c.notes.map Json.str) ++
    (match c.drums with
     | some kv => drumsBody kv.1 kv.2.1 (.str kv.2.2)
     | none => []) ++
    formatTail)

/-- How a rendered numeric literal reads back: `str()` prints a float
with no fractional digits as `m.0`, which reparses with one
fractional digit.  Every other literal reparses to itself. -/
def renormLit : Json → Json
  | .float m 0 => .float (m * 10) 1
  | v => v

/-- The decoded value of the serializer's output: the same record in
canonical dialect form, keys in serializer order, extras dropped. -/
def jsonOfCore (c : RenderCore) : Json :=
  .obj ([(chars "bpm", renormLit c.bpmLit),
    (chars "chords", .obj
      [(chars "progression",
        .arr (c.progression.map (fun ch => .arr (ch.map Json.str)))),
       (chars "interval", .str c.cInterval),
       (chars "duration", .str c.cDuration),
       (chars "filter", renormLit c.filterLit)]),
    (chars "melody", .obj
      [(chars "notes", .arr (c.notes.map Json.str)),
       (chars "interval", .str c.mInterval),
       (chars "duration", .str c.mDuration),
       (chars "waveform", .str c.mWaveform),
       (chars "delay", renormLit c.delayLit)])] ++
    match c.drums with
    | some kv =>
      [(chars "drums", .obj
        [(chars "kick", .arr (kv.1.map renormLit)),
         (chars "snare", .arr (kv.2.1.map renormLit)),
         (chars "interval", .str kv.2.2)])]
    | none => [])

/-- The validated record of `samplePattern`. -/
def samplePatternRecord : PatternData :=
  ⟨30,
   ⟨[[chars "C3", chars "Eb3", chars "G3"], [chars "Ab3", chars "C4"]],
    chars "4m", chars "2m", 600⟩,
   ⟨[chars "C5", chars "~", chars "G5"], chars "2m", chars "1m",
    chars "triangle", ⟨1, 2⟩⟩,
   some ⟨[1, 0, 0, 0], [0, 0, 1, 0], chars "4m"⟩⟩

/-- Decidable equality for validation results. -/
instance (priority := 100) exceptDecEq {e a : Type} [DecidableEq e] [DecidableEq a] :
    DecidableEq (Except e a) := fun x y =>
  match x, y with
  | .error v, .error w =>
    if h : v = w then isTrue (by rw [h])
    else isFalse (fun hh => h (Except.error.inj hh))
  | .ok v, .ok w =>
    if h : v = w then isTrue (by rw [h])
    else isFalse (fun hh => h (Except.ok.inj hh))
  | .error _, .ok _ => isFalse (fun hh => Except.noConfusion hh)
  | .ok _, .error _ => isFalse (fun hh => Except.noConfusion hh)

/-- Claim C2: contrary to the every-write-path backup/temp/rename
protocol, the scheduled find/replace execution writes the pattern file
directly — its trace is a read followed by an in-place truncate and
write, with no backup, no temporary file and no rename — so an
external reader between the truncate and the write observes an empty
(partially-written) file and the rolling backup is never refreshed.
The MCP writer `_write_pattern_file`, by contrast, performs exactly
backup, temp write, atomic rename. -/
theorem c2_find_replace_writes_directly :
    (executeFindReplace (chars "bpm: 30") (chars "bpm: 60") none
        (.success []) (some (chars "x bpm: 30 y"))).2.2 =
      [.readPatterns, .fileOp .openTruncatePatterns,
       .fileOp (.writePatternsData (chars "x bpm: 60 y"))] ∧
    (applyOp ⟨some (chars "x bpm: 30 y"), some (chars "old backup"), none⟩
        FileOp.openTruncatePatterns).patterns = some [] ∧
    (runOps ⟨some (chars "x bpm: 30 y"), some (chars "old backup"), none⟩
        [.openTruncatePatterns, .writePatternsData (chars "x bpm: 60 y")]).backup =
      some (chars "old backup") ∧
    writePatternFileOps
        ⟨some (chars "x bpm: 30 y"), some (chars "old backup"), none⟩
        (chars "new") =
      [.copyToBackup, .writeTemp (chars "new"), .renameTempToPatterns] := by
  decide

/-- Claim C3 (counterexample): the token `E#4` consists of the letter
E (in A–G), the accidental `#`, and the octave digit 4, yet the Note
Validator rejects it with the bad-name reason, because `E#` is not in
`VALID_NOTE_NAMES`; so the claimed acceptance of every
`<A-G>[#|b]?<0-8>` token is false. -/
theorem c3_counterexample :
    ('A' ≤ 'E' ∧ 'E' ≤ 'G') ∧ '#' ∈ ['#', 'b'] ∧ '4' ∈ chars "012345678" ∧
    (validateNoteName (chars "E#4")).1 = false ∧
    (validateNoteName (chars "E#4")).2 =
      chars "Invalid note name 'E#'. Valid notes: " ++
        joinSep (chars ", ") validNoteNames := by
  decide

/-- Claim C3 (amended): the Note Validator accepts exactly the tokens
built from one of the seventeen names of `VALID_NOTE_NAMES` (the
shapes `<A-G>[#|b]?` minus E#, B#, Cb, Fb) followed by an octave digit
0–8, accepts the rest marker unconditionally, and rejects `H3`, `C`,
`C#` and `C9`, each with its own reason string — bad format for the
first three, bad octave for `C9` — all four pairwise distinct. -/
theorem c3_note_validator :
    (∀ name ∈ validNoteNames, ∀ oct ∈ validOctaves,
      validateNoteName (name ++ oct) = (true, [])) ∧
    validateNoteName (chars "~") = (true, []) ∧
    validateNoteName (chars "H3") =
      (false, chars "Invalid note format 'H3'. Use format: Note[#/b]Octave (e.g., C3, Eb4, F#5) or '~' for silence") ∧
    validateNoteName (chars "C") =
      (false, chars "Invalid note format 'C'. Use format: Note[#/b]Octave (e.g., C3, Eb4, F#5) or '~' for silence") ∧
    validateNoteName (chars "C#") =
      (false, chars "Invalid note format 'C#'. Use format: Note[#/b]Octave (e.g., C3, Eb4, F#5) or '~' for silence") ∧
    validateNoteName (chars "C9") =
      (false, chars "Invalid octave '9'. Valid octaves: 0-8") ∧
    ((validateNoteName (chars "H3")).2 ≠ (validateNoteName (chars "C")).2 ∧
     (validateNoteName (chars "H3")).2 ≠ (validateNoteName (chars "C#")).2 ∧
     (validateNoteName (chars "H3")).2 ≠ (validateNoteName (chars "C9")).2 ∧
     (validateNoteName (chars "C")).2 ≠ (validateNoteName (chars "C#")).2 ∧
     (validateNoteName (chars "C")).2 ≠ (validateNoteName (chars "C9")).2 ∧
     (validateNoteName (chars "C#")).2 ≠ (validateNoteName (chars "C9")).2) := by
  decide

/-- Claim C3 witness: the amended acceptance clause at the concrete
token `C4`. -/
theorem c3_note_validator_witness :
    validateNoteName (chars "C" ++ chars "4") = (true, []) :=
  c3_note_validator.1 (chars "C") (by decide) (chars "4") (by decide)

/-- Claim C8: schema validation accepts a record carrying fields not
named in the data model (an extra `hihat` array inside the drums
section and an unknown top-level key) without rejecting or reporting
them, and the serializer renders it identically to the same record
without those fields, so they are silently dropped by a
validate-then-render edit. -/
theorem c8_extra_fields_dropped (d ts : List Char) :
    validatePatternStructure patternExtraFields = (true, []) ∧
    formatPatternJs patternExtraFields d ts = formatPatternJs samplePattern d ts ∧
    occursIn (chars "hihat")
      ((formatPatternJs patternExtraFields (chars "edit") (chars "T")).getD []) = false ∧
    occursIn (chars "zzz")
      ((formatPatternJs patternExtraFields (chars "edit") (chars "T")).getD []) = false := by
  refine ⟨by decide, ?_, ?_, ?_⟩
  · rfl
  · set_option maxRecDepth 40000 in decide
  · set_option maxRecDepth 40000 in decide

/-- Claim C4 (counterexample): a record violating two constraints
(`bpm` 150 above its bound and `chords.filter` 50 below its bound)
fails validation with *both* field errors collected — pydantic
aggregates, so "exactly the first failing field, a single failure" is
false; the resulting message names both fields. -/
theorem c4_counterexample :
    buildPatternData patternTwoBadFields = .error
      [⟨[chars "bpm"], chars "Input should be less than or equal to 120"⟩,
       ⟨[chars "chords", chars "filter"],
        chars "Input should be greater than or equal to 100"⟩] ∧
    (validatePatternStructure patternTwoBadFields).1 = false ∧
    occursIn (chars "bpm") (validatePatternStructure patternTwoBadFields).2 = true ∧
    occursIn (chars "filter") (validatePatternStructure patternTwoBadFields).2 = true := by
  decide

/-- Claim C4 (amended): a record failing the pydantic schema
validation is reported with the message rendering *all* collected
field errors (the model aggregates rather than stopping at the first
field), while the supplementary note-name checks do stop at the first
failing note: with a bad chord note `J3` and a bad melody note `Q5`,
only the first is reported. -/
theorem c4_error_reporting (j : Json) (es : List PyErr)
    (h : buildPatternData j = .error es) :
    validatePatternStructure j =
      (false, chars "Pattern validation failed: " ++ renderPyErrs es) ∧
    (buildPatternData patternTwoBadNotes).isOk = true ∧
    (validatePatternStructure patternTwoBadNotes).2 =
      chars "Invalid note in chord: " ++ (validateNoteName (chars "J3")).2 ∧
    occursIn (chars "Q5") (validatePatternStructure patternTwoBadNotes).2 = false := by
  refine ⟨?_, by decide, by decide, by decide⟩
  unfold validatePatternStructure
  rw [h]

/-- Claim C4 witness: the amended theorem at the two-bad-field
record. -/
theorem c4_error_reporting_witness :
    validatePatternStructure patternTwoBadFields =
      (false, chars "Pattern validation failed: " ++ renderPyErrs
        [⟨[chars "bpm"], chars "Input should be less than or equal to 120"⟩,
         ⟨[chars "chords", chars "filter"],
          chars "Input should be greater than or equal to 100"⟩]) :=
  (c4_error_reporting patternTwoBadFields _ (by decide)).1

/-- Claim C5 (counterexample): after the zero-delay scenario change
has fired (its entry was removed from the pending list),
`cancel_change` on its id raises an HTTP 404 "not found" error — it
is an error, not a no-op. -/
theorem c5_counterexample :
    queueScenarioFired.1.change_queue = [] ∧
    cancelChange queueScenarioFired.1 1 = .error 404 := by
  decide

/-- Claim C5 (amended): cancelling an id absent from the pending list
(in particular one that already fired) yields the 404 "not found"
error; cancelling a pending id succeeds, removing that entry and its
scheduled job while keeping every other entry and leaving the pattern
store untouched. -/
theorem c5_cancel_behaviour (st : ServerState) (id2 : Int) :
    ((∀ c ∈ st.change_queue, c.id ≠ id2) → cancelChange st id2 = .error 404) ∧
    (∀ st2 s1 s2, cancelChange st id2 = .ok (st2, s1, s2) →
      (∀ c ∈ st2.change_queue, c.id ≠ id2) ∧
      (∀ i ∈ st2.scheduledJobs, i ≠ id2) ∧
      (∀ c ∈ st.change_queue, c.id ≠ id2 → c ∈ st2.change_queue) ∧
      st2.patternsFile = st.patternsFile) := by
  constructor
  · intro h
    unfold cancelChange
    have hf : st.change_queue.find? (fun c => c.id == id2) = none := by
      rw [List.find?_eq_none]
      intro c hc
      simpa using h c hc
    rw [hf]
  · intro st2 s1 s2 h
    unfold cancelChange at h
    cases hf : st.change_queue.find? (fun c => c.id == id2) with
    | none => rw [hf] at h; exact absurd h (by simp)
    | some ch =>
      rw [hf] at h
      have hst2 : st2 = { st with
          scheduledJobs := st.scheduledJobs.filter (fun i => i ≠ id2),
          change_queue := st.change_queue.filter (fun c => c.id ≠ id2) } := by
        cases h
        rfl
      subst hst2
      refine ⟨?_, ?_, ?_, rfl⟩
      · intro c hc
        have := List.of_mem_filter hc
        simpa using this
      · intro i hi
        have := List.of_mem_filter hi
        simpa using this
      · intro c hc hne
        exact List.mem_filter.mpr ⟨hc, by simpa using hne⟩

/-- Claim C5 witness: the not-found branch of the amended theorem at
an empty queue. -/
theorem c5_cancel_behaviour_witness :
    cancelChange ⟨none, [], 0, []⟩ 1 = .error 404 :=
  (c5_cancel_behaviour ⟨none, [], 0, []⟩ 1).1 (by intro c hc; cases hc)

/-- Claim C10: when validation is enabled and fails, or when
formatting the record raises (for example a required key is missing),
the edit tool performs no file operation at all: the pattern store,
backup and temp file are all left exactly as they were. -/
theorem c10_edit_atomic_on_failure (j : Json) (d ts : List Char) (v : Bool)
    (fs : FS)
    (h : (v = true ∧ (validatePatternStructure j).1 = false) ∨
      formatPatternJs j d ts = none) :
    (strudelEditPattern j d v ts fs).2.1 = fs ∧
    (strudelEditPattern j d v ts fs).2.2 = [] := by
  unfold strudelEditPattern
  rcases h with ⟨hv, hval⟩ | hfmt
  · subst hv
    simp [hval]
  · by_cases hc : v = true ∧ (validatePatternStructure j).1 = false
    · simp [hc.1, hc.2]
    · have : ¬ (v = true ∧ ¬ (validatePatternStructure j).1 = true) := by
        intro hx
        exact hc ⟨hx.1, by simpa using hx.2⟩
      rw [if_neg (by simpa using this), hfmt]
      exact ⟨rfl, rfl⟩

/-- Claim C10 witness: the edit tool at an invalid record (bpm 150,
filter 50) with validation enabled leaves the file system untouched
and performs no operation. -/
theorem c10_edit_atomic_on_failure_witness :
    (strudelEditPattern patternTwoBadFields (chars "some edit") true (chars "T")
        ⟨some (chars "old"), none, none⟩).2.1 = ⟨some (chars "old"), none, none⟩ ∧
    (strudelEditPattern patternTwoBadFields (chars "some edit") true (chars "T")
        ⟨some (chars "old"), none, none⟩).2.2 = [] :=
  c10_edit_atomic_on_failure patternTwoBadFields (chars "some edit") (chars "T")
    true ⟨some (chars "old"), none, none⟩ (.inl ⟨rfl, by decide⟩)

/-- Splitting never yields an empty list of pieces. -/
theorem pySplitAux_ne_nil (sep : List Char) (f : Nat) (s : List Char) :
    pySplitAux sep f s ≠ [] := by
  match f, s with
  | _, [] => simp [pySplitAux]
  | 0, c :: rest => simp [pySplitAux]
  | f + 1, c :: rest =>
    simp only [pySplitAux]
    split
    · simp
    · split <;> simp

/-- Prepending a character to the first piece prepends it to the
joined text. -/
theorem joinSep_cons_head (sep l : List Char) (c : Char) (ls : List (List Char)) :
    joinSep sep ((c :: l) :: ls) = c :: joinSep sep (l :: ls) := by
  cases ls <;> simp [joinSep]

/-- CPython's replace is the join of the split: at every fuel level,
`repl.join(s.split(find))` equals `s.replace(find, repl)`. -/
theorem joinSep_pySplitAux (find repl : List Char) (f : Nat) (s : List Char) :
    joinSep repl (pySplitAux find f s) = pyReplaceAux find repl f s := by
  induction f generalizing s with
  | zero => cases s <;> simp [pySplitAux, pyReplaceAux, joinSep]
  | succ f ih =>
    cases s with
    | nil => simp [pySplitAux, pyReplaceAux, joinSep]
    | cons c rest =>
      simp only [pySplitAux, pyReplaceAux]
      split
      · cases hd : pySplitAux find f (List.drop (find.length - 1) rest) with
        | nil => exact absurd hd (pySplitAux_ne_nil find f _)
        | cons l ls =>
          have hj := ih (List.drop (find.length - 1) rest)
          rw [hd] at hj
          simp [joinSep, ← hj]
      · cases hd : pySplitAux find f rest with
        | nil => exact absurd hd (pySplitAux_ne_nil find f rest)
        | cons l ls =>
          have hj := ih rest
          rw [hd] at hj
          show joinSep repl ((c :: l) :: ls) = c :: pyReplaceAux find repl f rest
          rw [joinSep_cons_head, hj]

/-- The textual replacement performed by the queue is global:
`s.replace(find, repl)` equals `repl.join(s.split(find))`, which
rewrites every (non-overlapping, leftmost) occurrence. -/
theorem pyReplace_eq_join_split (find repl s : List Char) :
    pyReplace find repl s = joinSep repl (pySplit find s) :=
  (joinSep_pySplitAux find repl s.length s).symm

/-- Claim C6: when the find text occurs verbatim in the stored
pattern text at firing time, execution writes back a global
replacement of every occurrence (`str.replace`, which equals joining
the split pieces with the replacement — shown both in general and on
a two-occurrence input), and the zero-delay scenario (`bpm: 30` →
`bpm: 60` against a store containing `bpm: 30`) ends with the store
containing `bpm: 60` and an empty pending list. -/
theorem c6_global_replace (find repl content : List Char)
    (desc : Option (List Char)) (fb : FallbackOutcome)
    (_hne : find ≠ []) (hocc : occursIn find content = true) :
    (executeFindReplace find repl desc fb (some content)).2.1 =
      some (pyReplace find repl content) ∧
    pyReplace find repl content = joinSep repl (pySplit find content) ∧
    pyReplace (chars "a") (chars "b") (chars "a a") = chars "b b" ∧
    queueScenarioScheduled.2.2.isSome = true ∧
    queueScenarioFired.1.patternsFile = some (chars "bpm: 60") ∧
    queueScenarioFired.1.change_queue = [] := by
  refine ⟨?_, pyReplace_eq_join_split find repl content, by decide, by decide,
    by decide, by decide⟩
  unfold executeFindReplace
  simp [hocc]

/-- Claim C6 witness: the written store at the scenario's inputs. -/
theorem c6_global_replace_witness :
    (executeFindReplace (chars "bpm: 30") (chars "bpm: 60")
        (some (chars "speed up")) (.success (chars "ok"))
        (some (chars "bpm: 30"))).2.1 =
      some (pyReplace (chars "bpm: 30") (chars "bpm: 60") (chars "bpm: 30")) :=
  (c6_global_replace (chars "bpm: 30") (chars "bpm: 60") (chars "bpm: 30")
    (some (chars "speed up")) (.success (chars "ok")) (by decide) (by decide)).1

/-- Claim C7: when the find text does not occur in the stored pattern
text at firing time, the execution trace is exactly read, one
fallback-agent invocation, and only then the removal of the entry
from the pending list — for every fallback outcome, including an
error — and the store is left unchanged. -/
theorem c7_fallback_once (st : ServerState) (cid : Int) (ch : Change)
    (fb : FallbackOutcome) (content : List Char)
    (hfile : st.patternsFile = some content)
    (hmiss : occursIn ch.find content = false) :
    (processQueuedChange st cid ch fb).2.2 =
      [.readPatterns,
       .fallbackInvoke (fallbackPrompt ch.find ch.replace ch.description),
       .removeFromQueue cid] ∧
    ((processQueuedChange st cid ch fb).2.2.filter isFallbackEvent).length = 1 ∧
    (processQueuedChange st cid ch fb).2.2.getLast? =
      some (.removeFromQueue cid) ∧
    (processQueuedChange st cid ch fb).1.change_queue =
      st.change_queue.filter (fun c => c.id ≠ cid) ∧
    (processQueuedChange st cid ch fb).1.patternsFile = some content := by
  unfold processQueuedChange executeFindReplace
  rw [hfile]
  cases fb <;> simp [hmiss, isFallbackEvent]

/-- Claim C7 witness: the trace at a concrete missing find text with
a failing fallback. -/
theorem c7_fallback_once_witness :
    (processQueuedChange
        ⟨some (chars "bpm: 30"),
         [⟨1, chars "NOT_PRESENT", chars "x", none, 0, 0, chars "pending"⟩],
         1, []⟩ 1
        ⟨1, chars "NOT_PRESENT", chars "x", none, 0, 0, chars "pending"⟩
        (.failure (chars "boom"))).2.2 =
      [.readPatterns,
       .fallbackInvoke (fallbackPrompt (chars "NOT_PRESENT") (chars "x") none),
       .removeFromQueue 1] :=
  (c7_fallback_once _ 1 _ (.failure (chars "boom")) (chars "bpm: 30") rfl
    (by decide)).1

/-- A successful `eand` means both validations succeeded. -/
theorem eand_ok {α β : Type} {a : Except (List PyErr) α}
    {b : Except (List PyErr) β} {x : α × β} (h : eand a b = .ok x) :
    a = .ok x.1 ∧ b = .ok x.2 := by
  cases a with
  | error e1 => cases b <;> simp [eand] at h
  | ok av =>
    cases b with
    | error e2 => simp [eand] at h
    | ok bv =>
      simp only [eand, Except.ok.injEq] at h
      exact ⟨by rw [← h], by rw [← h]⟩

/-- A successful required-field lookup is a lookup. -/
theorem vRequired_ok {j : Json} {k : String} {v : Json}
    (h : vRequired j k = .ok v) : j.get? k = some v := by
  unfold vRequired at h
  cases hg : j.get? k with
  | none => rw [hg] at h; exact absurd h (by simp)
  | some w => rw [hg] at h; cases h; rfl

/-- A successful list validation means the raw value was a list of at
least the minimum length. -/
theorem vListValue_ok_arr {α : Type}
    {ev : List (List Char) → Json → Except (List PyErr) α}
    {loc : List (List Char)} {minLen : Nat} {v : Json} {l : List α}
    (h : vListValue ev loc minLen v = .ok l) :
    ∃ xs, v = .arr xs ∧ minLen ≤ xs.length := by
  unfold vListValue at h
  split at h
  case h_1 xs =>
    refine ⟨xs, rfl, ?_⟩
    by_cases hlt : xs.length < minLen
    · rw [if_pos hlt] at h
      split at h <;> exact absurd h (by simp)
    · omega
  case h_2 => exact absurd h (by simp)

/-- A successful error-relabelled validation was itself successful. -/
theorem emapErr_ok {α : Type} {f : List PyErr → List PyErr}
    {a : Except (List PyErr) α} {x : α} (h : emapErr f a = .ok x) :
    a = .ok x := by
  cases a with
  | ok w => simpa [emapErr] using h
  | error e => simp [emapErr] at h

/-- A successful drum-model validation means the raw kick value was a
non-empty list. -/
theorem buildDrumDefinition_ok_kick {v : Json} {dd : DrumDefinition}
    (h : buildDrumDefinition v = .ok dd) :
    ∃ xs, v.get? "kick" = some (.arr xs) ∧ 1 ≤ xs.length := by
  unfold buildDrumDefinition at h
  split at h
  case h_2 => exact absurd h (by simp)
  case h_1 kvs =>
    split at h
    case h_2 => exact absurd h (by simp)
    case h_1 x k s i heq =>
      have hki := (eand_ok heq).1
      unfold drumKickField at hki
      split at hki
      case h_1 => exact absurd hki (by simp)
      case h_2 kickV hreq =>
        split at hki
        case h_1 => exact absurd hki (by simp)
        case h_2 hits hlist =>
          obtain ⟨xs, hxs, hlen⟩ := vListValue_ok_arr hlist
          exact ⟨xs, by rw [vRequired_ok hreq, hxs], hlen⟩

/-- For a present, non-null drums key the optional-drums field is the
drum-model validation. -/
theorem patternDrumsField_some_nonnull {kvs : List (List Char × Json)} {v : Json}
    (hget : (Json.obj kvs).get? "drums" = some v) (hnn : v ≠ .null) :
    patternDrumsField (Json.obj kvs) =
      match emapErr (prefixErrs (chars "drums")) (buildDrumDefinition v) with
      | .ok d => .ok (some d)
      | .error es => .error es := by
  unfold patternDrumsField
  rw [hget]
  cases v <;> first | exact absurd rfl hnn | rfl

/-- A successful record validation with a present, non-null drums key
means the drums value passed the drum model. -/
theorem buildPatternData_ok_drums {j : Json} {p : PatternData}
    (h : buildPatternData j = .ok p) :
    ∀ v, j.get? "drums" = some v → v ≠ .null →
      ∃ dd, buildDrumDefinition v = .ok dd := by
  intro v hget hnn
  unfold buildPatternData at h
  split at h
  case h_2 => exact absurd h (by simp)
  case h_1 kvs =>
    split at h
    case h_2 => exact absurd h (by simp)
    case h_1 x b c m heq =>
      have hdr := (eand_ok (eand_ok (eand_ok heq).2).2).2
      rw [patternDrumsField_some_nonnull hget hnn] at hdr
      split at hdr
      · rename_i d hd
        exact ⟨d, emapErr_ok hd⟩
      · exact absurd hdr (by simp)

/-- Claim C9: the analyzer's melody density is guarded (an empty
melody yields density 0, shown both on the guard itself and through
the full analyzer), while the kick and snare densities both divide by
the length of the kick list with no guard — on a record with two kick
steps and four snare steps (three hits) the snare density is 3/2 —
so analysis of a record whose `drums.kick` is the empty list fails
(`ZeroDivisionError`), but under schema validation the kick list is
non-empty and the division-by-zero branch is unreachable. -/
theorem c9_density_guards :
    (∀ j p, buildPatternData j = .ok p →
      ∀ drumsV, j.getOrNull "drums" = some drumsV → drumsV.truthy = true →
      ∀ kickV kicks, drumsV.get? "kick" = some kickV →
        kickV.iter? = some kicks → kicks.length ≠ 0) ∧
    melodyDensityOf [] = qofInt 0 ∧
    (analyzePattern patternEmptyKick).isNone = true ∧
    ((analyzePattern patternEmptyMelody).map Analysis.melody_density) =
      some (qofInt 0) ∧
    ((analyzePattern patternKick2Snare4).map (fun a =>
        a.drums.map (fun di => (di.total_steps, di.snare_density)))) =
      some (some (2, qmk 3 2)) ∧
    (analyzePattern samplePattern).isSome = true := by
  refine ⟨?_, by decide, by decide, by decide, by decide, by decide⟩
  intro j p hok drumsV hgetd htr kickV kicks hk hit
  cases j with
  | obj kvs =>
    simp only [Json.getOrNull] at hgetd
    cases hdo : jlookup kvs (chars "drums") with
    | none =>
      rw [hdo] at hgetd
      simp at hgetd
      rw [← hgetd] at htr
      exact absurd htr (by decide)
    | some w =>
      rw [hdo] at hgetd
      simp at hgetd
      subst hgetd
      have hget2 : (Json.obj kvs).get? "drums" = some w := by
        simp [Json.get?, hdo]
      have hnn : w ≠ .null := by
        intro hh
        rw [hh] at htr
        exact absurd htr (by decide)
      obtain ⟨dd, hdd⟩ := buildPatternData_ok_drums hok w hget2 hnn
      obtain ⟨xs, hxs, hlen⟩ := buildDrumDefinition_ok_kick hdd
      rw [hk] at hxs
      cases hxs
      simp only [Json.iter?] at hit
      cases hit
      omega
  | null => simp [buildPatternData] at hok
  | bool b => simp [buildPatternData] at hok
  | int n => simp [buildPatternData] at hok
  | float m e => simp [buildPatternData] at hok
  | str s => simp [buildPatternData] at hok
  | arr xs => simp [buildPatternData] at hok

/-- Claim C9 witness: the division guard at the validated sample
record with drums. -/
theorem c9_density_guards_witness :
    ([Json.int 1, .int 0, .int 0, .int 0].length ≠ 0) :=
  c9_density_guards.1 samplePattern samplePatternRecord (by decide) sampleDrums
    rfl rfl (.arr [.int 1, .int 0, .int 0, .int 0])
    [.int 1, .int 0, .int 0, .int 0] rfl rfl

/-- Claim C1 (counterexample): the round trip is not valid for every
validated record and every description string.  First, the sample
validated record rendered with the description containing a newline
followed by an object-opener (so the second line escapes its comment)
produces text the Pattern Grammar Parser rejects.  Second, the record
whose `bpm` is the numeric string `"030"` passes schema validation
(pydantic's lax coercion) yet renders as the non-JSON literal
`bpm: 030`, which the parser also rejects — in both cases no record
at all comes back, let alone a structurally equal one. -/
theorem c1_counterexample :
    validatePatternStructure samplePattern = (true, []) ∧
    ((formatPatternJs samplePattern (chars "x\n(\x7b") (chars "T")).map
        (fun t => (parsePattern t).isNone)) = some true ∧
    validatePatternStructure patternStrBpm = (true, []) ∧
    ((formatPatternJs patternStrBpm (chars "a plain description") (chars "T")).map
        (fun t => (parsePattern t).isNone)) = some true := by
  set_option maxRecDepth 200000 in decide
